import Mathlib

/-!
# homebridge-telldus-tellstick-duo: identity resolution, reconciliation and event routing

A shallow embedding of `src/platform.js` (class `TelldusPlatform`): the
constructor (hardware reconciliation, device enumeration, sensor ingest), the
three event handlers, `generateUUID`, `getUniqueDeviceKey`,
`registerTellstickDevices`, `findDevice` and `findSensor`.

Modelling conventions.

* JavaScript objects that are shared by reference (the configuration entries
  and the device objects synthesised for adopted hardware) live in the state
  and are addressed by a `Ref`; an accessory is identified by its position in
  `this.devices` / `this.sensors`, so the lookups return that position.
* The `telldus` driver is modelled as a table `List HwDevice` with the
  obvious reading of its synchronous getters and setters.
* What the code takes from outside the repository is a parameter (`Env`):
  the UUID generator of the accessory host, the id the driver hands out for
  a new device, and the string-to-number coercion that the JavaScript `==`
  applies when a number meets a string.
* A JavaScript exception is `none`.
-/

namespace Telldus

/-! ## JavaScript values and primitives -/

/-- A primitive JavaScript value as it reaches the platform: a number (ids,
type codes) or a string (names, readings). -/
inductive JSVal where
  | num (n : Int)
  | str (s : String)
deriving DecidableEq, Repr

/-- A parameter value of a configuration entry (`device.parameters[name]`). -/
inductive ParamValue where
  | text (s : String)
  | number (n : Int)
deriving DecidableEq, Repr

/-- Result of `value.toString()` on a configuration parameter. -/
def ParamValue.toString : ParamValue → String
  | .text s => s
  | .number n => ToString.toString n

/-- Result of `id.toString()` in `generateUUID`. -/
def JSVal.toString : JSVal → String
  | .num n => ToString.toString n
  | .str s => s

/-- One row of the driver's device table (`telldus.getDevicesSync()`);
`status` is `status.name`, `none` when the item has no status. -/
structure HwDevice where
  id : Int
  name : String
  protocol : String
  model : String
  parameters : List (String × String)
  type : String
  status : Option String
deriving DecidableEq, Repr

/-- One element of `item.data` of a hardware sensor. -/
structure SensorEntry where
  type : String
  value : JSVal
  timestamp : JSVal
deriving DecidableEq, Repr

/-- One element of `telldus.getSensorsSync()`; `data` is `none` when the
property is missing. -/
structure HwSensor where
  id : Int
  protocol : String
  model : String
  data : Option (List SensorEntry)
deriving DecidableEq, Repr

/-- The collaborators outside the repository.
`generate` is `homebridge.hap.uuid.generate`, `allocId` is the id returned by
`telldus.addDeviceSync()` for the current table, and `toNumber` is the
coercion of a string to an integral number used by `==` (`none` when the
string does not denote an integer). -/
structure Env where
  generate : String → String
  allocId : List HwDevice → Int
  toNumber : String → Option Int

/-- JavaScript `a == b` on primitive values: numbers and strings compare
among themselves, a number and a string compare after coercing the string. -/
def looseEq (env : Env) : JSVal → JSVal → Bool
  | .num a, .num b => a == b
  | .str a, .str b => a == b
  | .num a, .str s => env.toNumber s == some a
  | .str s, .num a => env.toNumber s == some a

/-- Splitting a character list at every occurrence of `sep`; the result is
never empty (`"".split(sep)` is `[""]`). -/
def splitChars (sep : Char) : List Char → List (List Char)
  | [] => [[]]
  | c :: cs =>
    if c = sep then [] :: splitChars sep cs
    else
      match splitChars sep cs with
      | [] => [[c]]
      | w :: ws => (c :: w) :: ws

/-- JavaScript `s.split(sep)` for a one-character separator. -/
def split (sep : Char) (s : String) : List String :=
  (splitChars sep s.data).map String.mk

/-- JavaScript `parts.join(sep)`. -/
def join (sep : String) : List String → String
  | [] => ""
  | [x] => x
  | x :: y :: rest => x ++ sep ++ join sep (y :: rest)

/-! ## The driver's device table -/

/-- Result of `telldus.getDevicesSync()`. -/
def getDevicesSync (hw : List HwDevice) : List HwDevice := hw

/-- Effect of `telldus.removeDeviceSync(id)`. -/
def removeDeviceSync (hw : List HwDevice) (id : Int) : List HwDevice :=
  hw.filter (fun d => d.id != id)

/-- Effect and result of `telldus.addDeviceSync()`: a blank row of kind
`DEVICE` under the id chosen by the driver. -/
def addDeviceSync (env : Env) (hw : List HwDevice) : Int × List HwDevice :=
  let id := env.allocId hw
  (id, hw ++ [{ id := id, name := "", protocol := "", model := "", parameters := [],
                type := "DEVICE", status := none }])

/-- Effect of `telldus.setNameSync(id, name)`. -/
def setNameSync (hw : List HwDevice) (id : Int) (name : String) : List HwDevice :=
  hw.map (fun d => if d.id = id then { d with name := name } else d)

/-- Effect of `telldus.setProtocolSync(id, protocol)`. -/
def setProtocolSync (hw : List HwDevice) (id : Int) (protocol : String) : List HwDevice :=
  hw.map (fun d => if d.id = id then { d with protocol := protocol } else d)

/-- Effect of `telldus.setModelSync(id, model)`. -/
def setModelSync (hw : List HwDevice) (id : Int) (model : String) : List HwDevice :=
  hw.map (fun d => if d.id = id then { d with model := model } else d)

/-- Writing one binding of a parameter table: an existing binding of the
name is replaced, otherwise the binding is added. -/
def setParameter : List (String × String) → String → String → List (String × String)
  | [], name, value => [(name, value)]
  | (k, v) :: rest, name, value =>
    if k = name then (k, value) :: rest else (k, v) :: setParameter rest name value

/-- Effect of `telldus.setDeviceParameterSync(id, name, value)`. -/
def setDeviceParameterSync (hw : List HwDevice) (id : Int) (name value : String) :
    List HwDevice :=
  hw.map (fun d =>
    if d.id = id then { d with parameters := setParameter d.parameters name value } else d)

/-- The row the driver answers from for `id`. -/
def hwLookup (hw : List HwDevice) (id : Int) : Option HwDevice :=
  hw.find? (fun d => d.id == id)

/-- Result of `telldus.getProtocolSync(id)`. -/
def getProtocolSync (hw : List HwDevice) (id : Int) : String :=
  match hwLookup hw id with
  | some d => d.protocol
  | none => ""

/-- Result of `telldus.getModelSync(id)`. -/
def getModelSync (hw : List HwDevice) (id : Int) : String :=
  match hwLookup hw id with
  | some d => d.model
  | none => ""

/-- Reading one binding of a parameter table. -/
def getParameter : List (String × String) → String → Option String
  | [], _ => none
  | (k, v) :: rest, name => if k = name then some v else getParameter rest name

/-- Result of `telldus.getDeviceParameterSync(id, name, defaultValue)`. -/
def getDeviceParameterSync (hw : List HwDevice) (id : Int) (name defaultValue : String) :
    String :=
  match hwLookup hw id with
  | some d =>
    match getParameter d.parameters name with
    | some v => v
    | none => defaultValue
  | none => defaultValue

/-! ## Identity -/

/-- Method `generateUUID(id)`. -/
def generateUUID (env : Env) (id : JSVal) : String :=
  env.generate id.toString

/-- The array `parameters` that `getUniqueDeviceKey(id)` has built when it
reaches its `return`. -/
def uniqueKeyParameters (hw : List HwDevice) (id : Int) : List String :=
  ["house", "group", "unit", "code"].foldl
    (fun parameters name =>
      let value := getDeviceParameterSync hw id name ""
      if value != "" then parameters ++ [value] else parameters)
    [getProtocolSync hw id, getModelSync hw id]

/-- The string `parameters.join(':')` that `getUniqueDeviceKey(id)` passes to
`generateUUID`. -/
def uniqueKeyString (hw : List HwDevice) (id : Int) : String :=
  join ":" (uniqueKeyParameters hw id)

/-- Method `getUniqueDeviceKey(id)`. -/
def getUniqueDeviceKey (env : Env) (hw : List HwDevice) (id : Int) : String :=
  generateUUID env (.str (uniqueKeyString hw id))

/-! ## Platform state -/

/-- A device object: an entry of `config.devices`, or the object the
constructor synthesises for a hardware device without configuration.
`none` is `undefined`. -/
structure Device where
  id : Option Int
  uuid : Option String
  name : String
  protocol : String
  model : String
  parameters : List (String × ParamValue)
  state : Option Bool
  type : Option String
deriving DecidableEq, Repr

/-- A reference to a device object: the entry `config.devices[index]`, or
the `index`-th synthesised object. -/
inductive Ref where
  | config (index : Nat)
  | adopted (index : Nat)
deriving DecidableEq, Repr

/-- The accessory classes the constructor instantiates for devices. -/
inductive AccessoryKind where
  | switch
  | notificationSwitch
  | motionSensor
deriving DecidableEq, Repr

/-- An element of `this.devices`: the class instantiated and the device
object handed to it (`accessory.device`). -/
structure Accessory where
  kind : AccessoryKind
  device : Ref
deriving DecidableEq, Repr

/-- An entry of `config.sensors`. -/
structure ConfigSensor where
  id : JSVal
  name : String
deriving DecidableEq, Repr

/-- The device object the constructor builds for a sensor. -/
structure SensorDevice where
  id : Int
  name : String
  type : String
  protocol : String
  model : String
  uuid : String
  temperature : Option JSVal
  humidity : Option JSVal
  timestamp : Option JSVal
deriving DecidableEq, Repr

/-- An element of `this.sensors`: a `ThermometerHygrometer` with its device
object. -/
structure SensorAccessory where
  device : SensorDevice
deriving DecidableEq, Repr

/-- A JavaScript object with string values, as an insertion-ordered table. -/
abbrev Packet := List (String × JSVal)

/-- A call of `this.log`. -/
inductive LogEntry where
  | registering (name : String)
  | unknownType (type : String)
  | deviceEvent (device : Option Device)
  | deviceNotFound (id : JSVal)
  | sensorEvent (device : SensorDevice)
  | sensorNotFound (id : JSVal)
  | rawEvent (packet : Packet)
deriving DecidableEq, Repr

/-- A call of `accessory.emit`; `accessory` is the position of the emitting
accessory in `this.devices` (for `stateChanged`) or `this.sensors`. -/
inductive Emission where
  | stateChanged (accessory : Nat) (state : Bool)
  | temperatureChanged (accessory : Nat) (value timestamp : JSVal)
  | humidityChanged (accessory : Nat) (value timestamp : JSVal)
deriving DecidableEq, Repr

/-- The state the platform code reads and writes: the driver's device
table, the configuration lists, the synthesised device objects, the two
registries, and the trace of log calls and emitted notifications. -/
structure Platform where
  hw : List HwDevice
  configDevices : Option (List Device)
  configSensors : Option (List ConfigSensor)
  adopted : List Device
  devices : List Accessory
  sensors : List SensorAccessory
  log : List LogEntry
  emitted : List Emission
deriving DecidableEq, Repr

/-- The device object a reference points to. -/
def Platform.deref (p : Platform) : Ref → Option Device
  | .config i =>
    match p.configDevices with
    | some devices => devices[i]?
    | none => none
  | .adopted i => p.adopted[i]?

/-- In-place update of the device object a reference points to. -/
def Platform.modify (p : Platform) (ref : Ref) (f : Device → Device) : Platform :=
  match ref with
  | .config i =>
    match p.configDevices with
    | some devices => { p with configDevices := some (devices.modify f i) }
    | none => p
  | .adopted i => { p with adopted := p.adopted.modify f i }

/-! ## Reconciliation: `registerTellstickDevices` -/

/-- One iteration of the `for (var index in devices)` loop: the driver calls
for one configuration entry, and the entry with `id` and `uuid` written
back. -/
def registerDevice (env : Env) (hw : List HwDevice) (device : Device) :
    Device × List HwDevice :=
  let (id, hw) := addDeviceSync env hw
  let hw := setNameSync hw id device.name
  let hw := setProtocolSync hw id device.protocol
  let hw := setModelSync hw id device.model
  let hw := device.parameters.foldl
    (fun hw parameter => setDeviceParameterSync hw id parameter.1 parameter.2.toString) hw
  ({ device with id := some id, uuid := some (getUniqueDeviceKey env hw id) }, hw)

/-- The `for (var index in devices)` loop. -/
def registerLoop (env : Env) : List HwDevice → List Device → List Device × List HwDevice
  | hw, [] => ([], hw)
  | hw, device :: rest =>
    let (device, hw) := registerDevice env hw device
    let (rest, hw) := registerLoop env hw rest
    (device :: rest, hw)

/-- Method `registerTellstickDevices()`. -/
def registerTellstickDevices (env : Env) (p : Platform) : Platform :=
  match p.configDevices with
  | none => p
  | some devices =>
    let hw := (getDevicesSync p.hw).foldl (fun hw device => removeDeviceSync hw device.id) p.hw
    let (devices, hw) := registerLoop env hw devices
    { p with
      hw := hw
      configDevices := some devices
      log := p.log ++ devices.map (fun device => LogEntry.registering device.name) }

/-! ## Constructor: device enumeration pass -/

/-- Position of the first element with the given `uuid`, as in
`config.devices.find(iterator => iterator.uuid == uuid)`. -/
def findConfigDevice (uuid : String) : List Device → Nat → Option (Nat × Device)
  | [], _ => none
  | iterator :: rest, i =>
    if iterator.uuid = some uuid then some (i, iterator) else findConfigDevice uuid rest (i + 1)

/-- The parameters read back from the driver for a synthesised device. -/
def readParameters (hw : List HwDevice) (id : Int) : List (String × ParamValue) :=
  ["house", "group", "unit", "code"].foldl
    (fun parameters name =>
      let value := getDeviceParameterSync hw id name ""
      if value != "" then parameters ++ [(name, ParamValue.text value)] else parameters)
    []

/-- The device object an enumerated item resolves to, with the reference
under which it is (or will be) stored: the first configuration entry with
the item's uuid, else a new object built from the hardware attributes. -/
def resolveDevice (env : Env) (p : Platform) (item : HwDevice) : Ref × Device :=
  let uuid := getUniqueDeviceKey env p.hw item.id
  let found :=
    match p.configDevices with
    | some devices => findConfigDevice uuid devices 0
    | none => none
  match found with
  | some (i, device) => (Ref.config i, device)
  | none =>
    (Ref.adopted p.adopted.length,
     { id := some item.id, uuid := some uuid, name := item.name, protocol := item.protocol,
       model := item.model, parameters := readParameters p.hw item.id,
       state := none, type := none })

/-- Writing a resolved device object back: in place for a configuration
entry, as a new object otherwise. -/
def Platform.store (p : Platform) (ref : Ref) (device : Device) : Platform :=
  match ref with
  | .config i =>
    match p.configDevices with
    | some devices => { p with configDevices := some (devices.set i device) }
    | none => p
  | .adopted i =>
    if i < p.adopted.length then { p with adopted := p.adopted.set i device }
    else { p with adopted := p.adopted ++ [device] }

/-- The two assignments after the configuration lookup: `device.state`
from the item's status, and `device.type = 'switch'` when the type is
undefined. -/
def withInitialState (item : HwDevice) (device : Device) : Device :=
  let device := { device with state := some (item.status == some "ON") }
  if device.type = none then { device with type := some "switch" } else device

/-- The body of `telldus.getDevicesSync().forEach((item) => ...)` in the
constructor. -/
def enumerateItem (env : Env) (p : Platform) (item : HwDevice) : Platform :=
  if item.type = "DEVICE" then
    let (ref, device) := resolveDevice env p item
    let device := withInitialState item device
    let p := p.store ref device
    if device.model = "selflearning-switch" ∨ device.model = "codeswitch" then
      if device.type = some "occupancy-sensor" ∨ device.type = some "motion-sensor" then
        { p with devices := p.devices ++ [{ kind := .motionSensor, device := ref }] }
      else if device.type = some "notification-switch" then
        { p with devices := p.devices ++ [{ kind := .notificationSwitch, device := ref }] }
      else if device.type = some "lightbulb" ∨ device.type = some "outlet"
          ∨ device.type = some "switch" then
        { p with devices := p.devices ++ [{ kind := .switch, device := ref }] }
      else
        { p with
          log := p.log ++ [LogEntry.unknownType (device.type.getD "")]
          devices := p.devices ++ [{ kind := .switch, device := ref }] }
    else p
  else p

/-- The device enumeration pass of the constructor:
`telldus.getDevicesSync().forEach((item) => ...)`. -/
def enumerate (env : Env) (p : Platform) : Platform :=
  (getDevicesSync p.hw).foldl (enumerateItem env) p

/-! ## Constructor: sensor ingest pass -/

/-- The body of `item.data.forEach((entry) => ...)`. -/
def ingestEntry (device : SensorDevice) (entry : SensorEntry) : SensorDevice :=
  let device :=
    if entry.type = "TEMPERATURE" then { device with temperature := some entry.value }
    else device
  let device :=
    if entry.type = "HUMIDITY" then { device with humidity := some entry.value } else device
  { device with timestamp := some entry.timestamp }

/-- The device object built for a hardware sensor matched by the
configuration entry `config`, as it stands before `if (item.data)`. -/
def newSensorDevice (env : Env) (config : ConfigSensor) (item : HwSensor) : SensorDevice :=
  let device : SensorDevice :=
    { id := item.id, name := config.name, type := "sensor", protocol := item.protocol,
      model := item.model, uuid := generateUUID env (.num item.id),
      temperature := none, humidity := none, timestamp := none }
  let device := if device.model = "EA4C" then { device with model := "temperature" } else device
  if device.model = "1A2D" then { device with model := "temperaturehumidity" } else device

/-- The device object built for a hardware sensor matched by the
configuration entry `config`, as it stands before the final `switch`. -/
def buildSensorDevice (env : Env) (config : ConfigSensor) (item : HwSensor) : SensorDevice :=
  let device := newSensorDevice env config item
  match item.data with
  | some data => data.foldl ingestEntry device
  | none => device

/-- The body of `telldus.getSensorsSync().forEach((item) => ...)`; reading
`find` off an undefined `config.sensors` throws. -/
def ingestSensor (env : Env) (p : Platform) (item : HwSensor) : Option Platform :=
  match p.configSensors with
  | none => none
  | some sensors =>
    match sensors.find? (fun iterator => looseEq env iterator.id (.num item.id)) with
    | some config =>
      let device := buildSensorDevice env config item
      if device.model = "humidity" ∨ device.model = "temperature"
          ∨ device.model = "temperaturehumidity" then
        some { p with sensors := p.sensors ++ [{ device := device }] }
      else some p
    | none => some p

/-- The `forEach` over the hardware sensors. -/
def ingestSensors (env : Env) : Platform → List HwSensor → Option Platform
  | p, [] => some p
  | p, item :: rest =>
    match ingestSensor env p item with
    | some p => ingestSensors env p rest
    | none => none

/-! ## Registry lookups -/

/-- The `for` loop of `findDevice(id)` from position `i` on, over the
remaining accessories. Every accessory of a state reachable after startup
points to a device object; an accessory that does not is passed over. -/
def findDeviceFrom (env : Env) (p : Platform) (id : JSVal) :
    List Accessory → Nat → Option (Nat × Accessory)
  | [], _ => none
  | accessory :: rest, i =>
    match p.deref accessory.device with
    | some device =>
      if (match device.id with
          | some n => looseEq env id (.num n)
          | none => false) then some (i, accessory)
      else if looseEq env id (.str device.name) then some (i, accessory)
      else findDeviceFrom env p id rest (i + 1)
    | none => findDeviceFrom env p id rest (i + 1)

/-- Method `findDevice(id)`: the accessory returned, with its position in
`this.devices`; `none` is `undefined`. -/
def findDevice (env : Env) (p : Platform) (id : JSVal) : Option (Nat × Accessory) :=
  findDeviceFrom env p id p.devices 0

/-- The `for` loop of `findSensor(id)` from position `i` on. -/
def findSensorFrom (env : Env) (id : JSVal) :
    List SensorAccessory → Nat → Option (Nat × SensorAccessory)
  | [], _ => none
  | accessory :: rest, i =>
    if looseEq env id (.num accessory.device.id) then some (i, accessory)
    else if looseEq env id (.str accessory.device.name) then some (i, accessory)
    else findSensorFrom env id rest (i + 1)

/-- Method `findSensor(id)`. -/
def findSensor (env : Env) (p : Platform) (id : JSVal) : Option (Nat × SensorAccessory) :=
  findSensorFrom env id p.sensors 0

/-! ## Event handlers -/

/-- The handler passed to `telldus.addDeviceEventListener`; `status` is
`status.name`. -/
def deviceEventHandler (env : Env) (p : Platform) (id : JSVal) (status : String) : Platform :=
  match findDevice env p id with
  | some (i, accessory) =>
    let state := status == "ON"
    let p := p.modify accessory.device (fun device => { device with state := some state })
    { p with
      emitted := p.emitted ++ [Emission.stateChanged i state]
      log := p.log ++ [LogEntry.deviceEvent (p.deref accessory.device)] }
  | none => { p with log := p.log ++ [LogEntry.deviceNotFound id] }

/-- The two conditional updates of the sensor handler applied to the device
object, after `device.timestamp = timestamp`. -/
def updateReading (device : SensorDevice) (protocol : String) (type : Int)
    (value timestamp : JSVal) : SensorDevice :=
  let device := { device with timestamp := some timestamp }
  let device :=
    if protocol = "temperature" ∨ (protocol = "temperaturehumidity" ∧ type = 1) then
      { device with temperature := some value }
    else device
  if protocol = "humidity" ∨ (protocol = "temperaturehumidity" ∧ type = 2) then
    { device with humidity := some value }
  else device

/-- The notifications the sensor handler emits for accessory `i`. -/
def readingEmissions (i : Nat) (protocol : String) (type : Int) (value timestamp : JSVal) :
    List Emission :=
  (if protocol = "temperature" ∨ (protocol = "temperaturehumidity" ∧ type = 1) then
    [Emission.temperatureChanged i value timestamp] else [])
  ++
  (if protocol = "humidity" ∨ (protocol = "temperaturehumidity" ∧ type = 2) then
    [Emission.humidityChanged i value timestamp] else [])

/-- The handler passed to `telldus.addSensorEventListener`. -/
def sensorEventHandler (env : Env) (p : Platform) (id : JSVal) (protocol _model : String)
    (type : Int) (value timestamp : JSVal) : Platform :=
  match findSensor env p id with
  | some (i, accessory) =>
    let device := updateReading accessory.device protocol type value timestamp
    { p with
      sensors := p.sensors.set i { accessory with device := device }
      emitted := p.emitted ++ readingEmissions i protocol type value timestamp
      log := p.log ++ [LogEntry.sensorEvent device] }
  | none => { p with log := p.log ++ [LogEntry.sensorNotFound id] }

/-- Assignment `packet[key] = value` on a plain object: an own property is
overwritten in place or appended; assigning a string to `__proto__` runs the
inherited setter, which ignores it. -/
def setProperty : Packet → String → JSVal → Packet
  | [], key, value => if key = "__proto__" then [] else [(key, value)]
  | (k, v) :: rest, key, value =>
    if k = key then (k, value) :: rest else (k, v) :: setProperty rest key value

/-- Reading an own property of a plain object. -/
def getProperty : Packet → String → Option JSVal
  | [], _ => none
  | (k, v) :: rest, key => if k = key then some v else getProperty rest key

/-- The body of `data.split(';').forEach((item) => ...)`. -/
def addRawItem (packet : Packet) (item : String) : Packet :=
  match split ':' item with
  | [key, value] => setProperty packet key (.str value)
  | _ => packet

/-- The object `packet` the raw-event handler has built when it logs it. -/
def rawPacket (id : JSVal) (data : String) : Packet :=
  (split ';' data).foldl addRawItem [("id", id)]

/-- The handler passed to `telldus.addRawDeviceEventListener`. -/
def rawDeviceEventHandler (p : Platform) (id : JSVal) (data : String) : Platform :=
  { p with log := p.log ++ [LogEntry.rawEvent (rawPacket id data)] }

/-! ## Constructor -/

/-- The configuration object handed to the constructor. -/
structure Config where
  devices : Option (List Device)
  sensors : Option (List ConfigSensor)
deriving DecidableEq, Repr

/-- The platform when the constructor has set its fields and calls
`registerTellstickDevices`: empty registries over the given configuration and
driver table. -/
def initial (config : Config) (hw : List HwDevice) : Platform :=
  { hw := hw, configDevices := config.devices, configSensors := config.sensors,
    adopted := [], devices := [], sensors := [], log := [], emitted := [] }

/-- The constructor of `TelldusPlatform` up to the registration of the event
listeners, run against the driver's device table `hw` and sensor list
`hwSensors`. -/
def construct (env : Env) (config : Config) (hw : List HwDevice) (hwSensors : List HwSensor) :
    Option Platform :=
  let p := initial config hw
  let p := registerTellstickDevices env p
  let p := enumerate env p
  ingestSensors env p hwSensors

/-! ## Vocabulary of the statements -/

/-- The key equals (`==`) the device id or the device name of a device
accessory. -/
def deviceHasKey (env : Env) (p : Platform) (id : JSVal) (accessory : Accessory) : Bool :=
  match p.deref accessory.device with
  | some device =>
    (match device.id with
     | some n => looseEq env id (.num n)
     | none => false) || looseEq env id (.str device.name)
  | none => false

/-- The key equals (`==`) the device id or the device name of a sensor
accessory. -/
def sensorHasKey (env : Env) (id : JSVal) (accessory : SensorAccessory) : Bool :=
  looseEq env id (.num accessory.device.id) || looseEq env id (.str accessory.device.name)

/-- The element `a` at position `k` is the first element of `l` in list
order that satisfies `f`. -/
def IsFirst {α : Type} (f : α → Bool) (l : List α) (k : Nat) (a : α) : Prop :=
  l[k]? = some a ∧ f a = true ∧ ∀ j b, j < k → l[j]? = some b → f b = false

/-! ## A concrete environment for evaluation -/

/-- Value of a list of decimal digits, most significant first. -/
def digitsValue : List Char → Nat → Option Nat
  | [], acc => some acc
  | c :: cs, acc =>
    if '0' ≤ c ∧ c ≤ '9' then digitsValue cs (acc * 10 + (c.toNat - '0'.toNat)) else none

/-- A string-to-number coercion for the examples: it agrees with JavaScript
on the empty string (zero), on optionally signed runs of decimal digits, and
on strings of lower-case letters such as `lamp` (no integer). The examples use no other
strings as names. -/
def decimalToNumber (s : String) : Option Int :=
  match s.data with
  | [] => some 0
  | '-' :: c :: cs => (digitsValue (c :: cs) 0).map (fun n => -(n : Int))
  | '+' :: c :: cs => (digitsValue (c :: cs) 0).map (fun n => (n : Int))
  | '-' :: [] => none
  | '+' :: [] => none
  | cs => (digitsValue cs 0).map (fun n => (n : Int))

/-- The id after the largest id of the table, starting at one. -/
def nextId (hw : List HwDevice) : Int :=
  hw.foldl (fun m d => max m d.id) 0 + 1

/-- An environment with an injective identity generator, ids handed out in
increasing order, and the decimal coercion. -/
def sampleEnv : Env :=
  { generate := fun s => "uuid/" ++ s, allocId := nextId, toNumber := decimalToNumber }

/-- A configuration with two devices and two sensors. -/
def homeConfig : Config :=
  { devices := some
      [{ id := none, uuid := none, name := "lamp", protocol := "arctech",
         model := "codeswitch", parameters := [("house", .text "A"), ("unit", .number 1)],
         state := none, type := some "lightbulb" },
       { id := none, uuid := none, name := "hall", protocol := "arctech",
         model := "selflearning-switch",
         parameters := [("house", .number 100), ("unit", .number 1)],
         state := none, type := some "motion-sensor" }],
    sensors := some [{ id := .num 11, name := "attic" }, { id := .num 12, name := "cellar" }] }

/-- The hardware sensors 11 (combined, with one reading of each kind) and 12
(a thermometer without readings). -/
def homeSensors : List HwSensor :=
  [{ id := 11, protocol := "mandolyn", model := "temperaturehumidity",
     data := some
       [{ type := "TEMPERATURE", value := .str "19.0", timestamp := .num 100 },
        { type := "HUMIDITY", value := .str "40", timestamp := .num 100 }] },
   { id := 12, protocol := "fineoffset", model := "EA4C", data := none }]

/-- The platform the constructor builds from `homeConfig` over an empty
driver table. -/
def homeStartup : Platform :=
  (construct sampleEnv homeConfig [] homeSensors).getD (initial homeConfig [])

/-- The accessory of sensor 11 after startup. -/
def atticSensor : SensorAccessory :=
  { device := { id := 11, name := "attic", type := "sensor", protocol := "mandolyn",
                model := "temperaturehumidity", uuid := "uuid/11",
                temperature := some (.str "19.0"), humidity := some (.str "40"),
                timestamp := some (.num 100) } }

/-- The value of the last entry of `data`, in list order, whose type is
`type`; `none` when there is no such entry. -/
def lastValueOfType (type : String) (data : List SensorEntry) : Option JSVal :=
  ((data.filter (fun entry => entry.type = type)).getLast?).map (fun entry => entry.value)

/-- A hardware sensor reporting two temperatures and one humidity, the
timestamps not in list order. -/
def sampleHwSensor : HwSensor :=
  { id := 31, protocol := "oregon", model := "1A2D",
    data := some
      [{ type := "TEMPERATURE", value := .str "20", timestamp := .num 900 },
       { type := "HUMIDITY", value := .str "55", timestamp := .num 700 },
       { type := "TEMPERATURE", value := .str "22", timestamp := .num 500 }] }

/-- A platform before the sensor pass, with sensor 31 configured. -/
def sampleBeforeSensors : Platform :=
  { hw := [], configDevices := none,
    configSensors := some [{ id := .num 31, name := "porch" }],
    adopted := [], devices := [], sensors := [], log := [], emitted := [] }

/-- A hardware row for a device configured as a motion sensor. -/
def sampleHall : HwDevice :=
  { id := 1, name := "hall", protocol := "arctech", model := "selflearning-switch",
    parameters := [("house", "100"), ("unit", "1")], type := "DEVICE", status := none }

/-- A hardware row for a device configured with an unrecognised type. -/
def sampleDimmer : HwDevice :=
  { id := 2, name := "dimmer", protocol := "arctech", model := "selflearning-switch",
    parameters := [("house", "100"), ("unit", "2")], type := "DEVICE", status := none }

/-- A configuration with a motion sensor and a device of an unrecognised
type. -/
def enumerationConfig : Config :=
  { devices := some
      [{ id := none, uuid := none, name := "hall", protocol := "arctech",
         model := "selflearning-switch",
         parameters := [("house", .number 100), ("unit", .number 1)],
         state := none, type := some "motion-sensor" },
       { id := none, uuid := none, name := "dimmer", protocol := "arctech",
         model := "selflearning-switch",
         parameters := [("house", .number 100), ("unit", .number 2)],
         state := none, type := some "dimmer" }],
    sensors := some [] }

/-- The platform before the enumeration pass: `enumerationConfig`
registered over an empty driver table, which gives the rows `sampleHall` and
`sampleDimmer`. -/
def sampleBeforeEnumeration : Platform :=
  registerTellstickDevices sampleEnv (initial enumerationConfig [])

/-- The two parts of a payload item that splits on `:` into exactly two
parts; `none` for an item with no `:` or with more than one. -/
def keyValue (item : String) : Option (String × String) :=
  match split ':' item with
  | [key, value] => some (key, value)
  | _ => none

/-- The `key:value` entries of a raw payload, in payload order: the
`;`-separated items that split on `:` into exactly two parts. -/
def rawPairs (data : String) : List (String × String) :=
  (split ';' data).filterMap keyValue

/-- The value of the last pair, in list order, with the given key. -/
def lastPairValue (key : String) (pairs : List (String × String)) : Option String :=
  ((pairs.filter (fun pair => pair.1 = key)).getLast?).map (fun pair => pair.2)

/-- The non-empty values among the parameters house, group, unit, code of a
hardware device, in that order. -/
def presentValues (hw : List HwDevice) (id : Int) : List String :=
  (["house", "group", "unit", "code"].map
    (fun name => getDeviceParameterSync hw id name "")).filter (fun value => value != "")

/-- Two hardware devices with the same protocol and model: the first has
only house = 5, the second has only group = 5. -/
def sampleKeyTable : List HwDevice :=
  [{ id := 1, name := "a", protocol := "arctech", model := "selflearning-switch",
     parameters := [("house", "5")], type := "DEVICE", status := none },
   { id := 2, name := "b", protocol := "arctech", model := "selflearning-switch",
     parameters := [("group", "5")], type := "DEVICE", status := none },
   { id := 3, name := "c", protocol := "arctech", model := "selflearning-switch",
     parameters := [("house", "5"), ("unit", "1")], type := "DEVICE", status := none }]

/-- The value a configuration entry gives a parameter: the `toString` of
the last binding of the name, `none` when the name is not bound. -/
def configParameter (parameters : List (String × ParamValue)) (name : String) :
    Option String :=
  ((parameters.filter (fun parameter => parameter.1 = name)).getLast?).map
    (fun parameter => parameter.2.toString)

/-- The driver hands out ids that are not in use: the id returned by
`addDeviceSync` differs from the id of every row of the table. -/
def FreshIds (env : Env) : Prop :=
  ∀ hw : List HwDevice, ∀ row ∈ hw, row.id ≠ env.allocId hw

/-- The hardware row that the registration loop leaves for a configuration
entry registered under `id`. -/
def hwRow (id : Int) (device : Device) : HwDevice :=
  { id := id, name := device.name, protocol := device.protocol, model := device.model,
    parameters := device.parameters.foldl
      (fun table parameter => setParameter table parameter.1 parameter.2.toString) [],
    type := "DEVICE", status := none }

/-- The configuration entry as the registration loop leaves it when it is
registered under `id`. -/
def registered (env : Env) (id : Int) (device : Device) : Device :=
  { device with id := some id, uuid := some (getUniqueDeviceKey env [hwRow id device] id) }

/-- A hardware row carries the name, protocol, model and parameters of a
configuration entry. -/
def Mirrors (row : HwDevice) (device : Device) : Prop :=
  row.name = device.name ∧ row.protocol = device.protocol ∧ row.model = device.model
  ∧ ∀ name, getParameter row.parameters name = configParameter device.parameters name

/-- A platform before reconciliation: two prior hardware devices and one
configured device. -/
def sampleBeforeRegistration : Platform :=
  { hw :=
      [{ id := 4, name := "old lamp", protocol := "arctech", model := "codeswitch",
         parameters := [("house", "A"), ("unit", "1")], type := "DEVICE", status := some "ON" },
       { id := 9, name := "old fan", protocol := "waveman", model := "codeswitch",
         parameters := [("house", "B")], type := "DEVICE", status := some "OFF" }],
    configDevices := some
      [{ id := none, uuid := none, name := "desk", protocol := "arctech",
         model := "selflearning-switch",
         parameters := [("house", .number 1234), ("unit", .text "3")],
         state := none, type := some "lightbulb" }],
    configSensors := some [], adopted := [], devices := [], sensors := [],
    log := [], emitted := [] }

/-- Position `m` of a list of uuids holds a uuid that occurs at no earlier
position: the entry there is the one `config.devices.find` returns for it. -/
def FirstUuid (uuids : List (Option String)) (m : Nat) : Prop :=
  ∃ u, uuids[m]? = some (some u) ∧ ∀ k, k < m → uuids[k]? ≠ some (some u)

/-- The state of the enumeration pass over a freshly registered table:
the table is `rows`, no device object has been synthesised, the
configuration entries carry the uuids `uuids` and the ids `ids`, and every
accessory wraps a configuration entry that is the first one with its uuid. -/
def Enumerated (uuids : List (Option String)) (ids : List (Option Int))
    (rows : List HwDevice) (s : Platform) : Prop :=
  s.hw = rows ∧ s.adopted = []
  ∧ (∃ ds, s.configDevices = some ds ∧ ds.map (fun e => e.uuid) = uuids
      ∧ ds.map (fun e => e.id) = ids)
  ∧ ∀ a ∈ s.devices, ∃ m, a.device = Ref.config m ∧ FirstUuid uuids m

/-- A configuration with two devices of identical protocol, model, house
and unit. -/
def duplicateConfig : Config :=
  { devices := some
      [{ id := none, uuid := none, name := "left", protocol := "arctech",
         model := "selflearning-switch",
         parameters := [("house", .number 77), ("unit", .number 1)],
         state := none, type := none },
       { id := none, uuid := none, name := "right", protocol := "arctech",
         model := "selflearning-switch",
         parameters := [("house", .text "77"), ("unit", .text "1")],
         state := none, type := none }],
    sensors := some [] }

/-- The platform the constructor builds from `duplicateConfig` over an empty
driver table. -/
def duplicateStartup : Platform :=
  (construct sampleEnv duplicateConfig [] []).getD (initial duplicateConfig [])

/-- A configuration in which the first device is named `2` and the first
sensor is named `6`. -/
def shadowConfig : Config :=
  { devices := some
      [{ id := none, uuid := none, name := "2", protocol := "arctech", model := "codeswitch",
         parameters := [("house", .text "A"), ("unit", .text "1")],
         state := none, type := none },
       { id := none, uuid := none, name := "porch", protocol := "arctech",
         model := "codeswitch",
         parameters := [("house", .text "A"), ("unit", .text "2")],
         state := none, type := none }],
    sensors := some [{ id := .num 5, name := "6" }, { id := .num 6, name := "shed" }] }

/-- The hardware sensors 5 and 6, without readings. -/
def shadowSensors : List HwSensor :=
  [{ id := 5, protocol := "fineoffset", model := "temperature", data := none },
   { id := 6, protocol := "fineoffset", model := "temperature", data := none }]

/-- The platform the constructor builds from `shadowConfig`. -/
def shadowStartup : Platform :=
  (construct sampleEnv shadowConfig [] shadowSensors).getD (initial shadowConfig [])

/-- The states of the platform after startup: the state the constructor
returns for a configuration and driver tables, and every state reached from
it by delivering device-state, sensor-reading and raw-frame events. -/
inductive Reachable (env : Env) (config : Config) (hw : List HwDevice)
    (hwSensors : List HwSensor) : Platform → Prop where
  | startup (q : Platform) :
      construct env config hw hwSensors = some q → Reachable env config hw hwSensors q
  | deviceEvent (q : Platform) (id : JSVal) (status : String) :
      Reachable env config hw hwSensors q →
      Reachable env config hw hwSensors (deviceEventHandler env q id status)
  | sensorEvent (q : Platform) (id : JSVal) (protocol model : String) (type : Int)
      (value timestamp : JSVal) :
      Reachable env config hw hwSensors q →
      Reachable env config hw hwSensors
        (sensorEventHandler env q id protocol model type value timestamp)
  | rawEvent (q : Platform) (id : JSVal) (data : String) :
      Reachable env config hw hwSensors q →
      Reachable env config hw hwSensors (rawDeviceEventHandler q id data)

/-- Every device object has a hardware id, and every accessory of the device
registry points to a device object. -/
def RegistryValid (s : Platform) : Prop :=
  (∀ ds, s.configDevices = some ds → ∀ d ∈ ds, d.id ≠ none)
  ∧ (∀ d ∈ s.adopted, d.id ≠ none)
  ∧ ∀ a ∈ s.devices, (s.deref a.device).isSome = true

/-! ## Lookups: first match in list order -/

theorem isFirst_cons_zero {α : Type} (f : α → Bool) (x : α) (l : List α) (h : f x = true)
    (k : Nat) (a : α) : IsFirst f (x :: l) k a ↔ k = 0 ∧ a = x := by
  constructor
  · rintro ⟨hk, _, hmin⟩
    cases k with
    | zero => simp at hk; exact ⟨rfl, hk.symm⟩
    | succ k =>
      have := hmin 0 x (Nat.succ_pos k) (by simp)
      simp [h] at this
  · rintro ⟨rfl, rfl⟩
    exact ⟨by simp, h, fun j b hj => absurd hj (Nat.not_lt_zero j)⟩

theorem isFirst_cons_succ {α : Type} (f : α → Bool) (x : α) (l : List α) (h : f x = false)
    (k : Nat) (a : α) : IsFirst f (x :: l) k a ↔ ∃ k0, k = k0 + 1 ∧ IsFirst f l k0 a := by
  constructor
  · rintro ⟨hk, ha, hmin⟩
    cases k with
    | zero =>
      simp at hk
      subst hk
      simp [h] at ha
    | succ k =>
      refine ⟨k, rfl, by simpa using hk, ha, fun j b hj hb => ?_⟩
      exact hmin (j + 1) b (Nat.succ_lt_succ hj) (by simpa using hb)
  · rintro ⟨k0, rfl, hk, ha, hmin⟩
    refine ⟨by simpa using hk, ha, fun j b hj hb => ?_⟩
    cases j with
    | zero =>
      simp at hb
      subst hb
      exact h
    | succ j => exact hmin j b (Nat.lt_of_succ_lt_succ hj) (by simpa using hb)

theorem findDeviceFrom_some (env : Env) (p : Platform) (id : JSVal) (l : List Accessory)
    (i k : Nat) (a : Accessory) :
    findDeviceFrom env p id l i = some (k, a) ↔
      ∃ j, k = i + j ∧ IsFirst (deviceHasKey env p id) l j a := by
  induction l generalizing i with
  | nil => simp [findDeviceFrom, IsFirst]
  | cons x l ih =>
    by_cases hx : deviceHasKey env p id x = true
    · have hfind : findDeviceFrom env p id (x :: l) i = some (i, x) := by
        unfold deviceHasKey at hx
        unfold findDeviceFrom
        cases hd : p.deref x.device with
        | none => simp [hd] at hx
        | some d =>
          simp only [hd, Bool.or_eq_true] at hx
          simp only []
          rcases hx with hx | hx
          · simp [hx]
          · simp [hx]
      rw [hfind]
      constructor
      · intro h
        simp only [Option.some.injEq, Prod.mk.injEq] at h
        exact ⟨0, by omega, (isFirst_cons_zero _ x l hx 0 a).2 ⟨rfl, h.2.symm⟩⟩
      · rintro ⟨j, hk, hj⟩
        obtain ⟨rfl, rfl⟩ := (isFirst_cons_zero _ x l hx j a).1 hj
        simp [hk]
    · have hx0 : deviceHasKey env p id x = false := by simpa using hx
      have hfind : findDeviceFrom env p id (x :: l) i = findDeviceFrom env p id l (i + 1) := by
        unfold deviceHasKey at hx0
        conv => lhs; unfold findDeviceFrom
        cases hd : p.deref x.device with
        | none => simp
        | some d =>
          simp only [hd, Bool.or_eq_false_iff] at hx0
          simp [hx0.1, hx0.2]
      rw [hfind, ih]
      constructor
      · rintro ⟨j, hk, hj⟩
        exact ⟨j + 1, by omega, (isFirst_cons_succ _ x l hx0 (j + 1) a).2 ⟨j, rfl, hj⟩⟩
      · rintro ⟨j, hk, hj⟩
        obtain ⟨j0, rfl, hj0⟩ := (isFirst_cons_succ _ x l hx0 j a).1 hj
        exact ⟨j0, by omega, hj0⟩

theorem findDeviceFrom_none (env : Env) (p : Platform) (id : JSVal) (l : List Accessory)
    (i : Nat) :
    findDeviceFrom env p id l i = none ↔ ∀ a ∈ l, deviceHasKey env p id a = false := by
  induction l generalizing i with
  | nil => simp [findDeviceFrom]
  | cons x l ih =>
    unfold findDeviceFrom
    simp only [List.mem_cons, forall_eq_or_imp]
    unfold deviceHasKey
    cases hd : p.deref x.device with
    | none => simpa using ih (i + 1)
    | some d =>
      simp only []
      split
      · rename_i h
        simp [h]
      · rename_i h
        split
        · rename_i h2
          simp [h2]
        · rename_i h2
          have := ih (i + 1)
          unfold deviceHasKey at this
          simp [h, h2, this]

theorem findSensorFrom_some (env : Env) (id : JSVal) (l : List SensorAccessory)
    (i k : Nat) (a : SensorAccessory) :
    findSensorFrom env id l i = some (k, a) ↔
      ∃ j, k = i + j ∧ IsFirst (sensorHasKey env id) l j a := by
  induction l generalizing i with
  | nil => simp [findSensorFrom, IsFirst]
  | cons x l ih =>
    by_cases hx : sensorHasKey env id x = true
    · have hfind : findSensorFrom env id (x :: l) i = some (i, x) := by
        unfold sensorHasKey at hx
        unfold findSensorFrom
        simp only [Bool.or_eq_true] at hx
        rcases hx with hx | hx
        · simp [hx]
        · simp [hx]
      rw [hfind]
      constructor
      · intro h
        simp only [Option.some.injEq, Prod.mk.injEq] at h
        exact ⟨0, by omega, (isFirst_cons_zero _ x l hx 0 a).2 ⟨rfl, h.2.symm⟩⟩
      · rintro ⟨j, hk, hj⟩
        obtain ⟨rfl, rfl⟩ := (isFirst_cons_zero _ x l hx j a).1 hj
        simp [hk]
    · have hx0 : sensorHasKey env id x = false := by simpa using hx
      have hfind : findSensorFrom env id (x :: l) i = findSensorFrom env id l (i + 1) := by
        unfold sensorHasKey at hx0
        conv => lhs; unfold findSensorFrom
        simp only [Bool.or_eq_false_iff] at hx0
        simp [hx0.1, hx0.2]
      rw [hfind, ih]
      constructor
      · rintro ⟨j, hk, hj⟩
        exact ⟨j + 1, by omega, (isFirst_cons_succ _ x l hx0 (j + 1) a).2 ⟨j, rfl, hj⟩⟩
      · rintro ⟨j, hk, hj⟩
        obtain ⟨j0, rfl, hj0⟩ := (isFirst_cons_succ _ x l hx0 j a).1 hj
        exact ⟨j0, by omega, hj0⟩

theorem findSensorFrom_none (env : Env) (id : JSVal) (l : List SensorAccessory) (i : Nat) :
    findSensorFrom env id l i = none ↔ ∀ a ∈ l, sensorHasKey env id a = false := by
  induction l generalizing i with
  | nil => simp [findSensorFrom]
  | cons x l ih =>
    unfold findSensorFrom
    simp only [List.mem_cons, forall_eq_or_imp]
    unfold sensorHasKey
    split
    · rename_i h
      simp [h]
    · rename_i h
      split
      · rename_i h2
        simp [h2]
      · rename_i h2
        have := ih (i + 1)
        unfold sensorHasKey at this
        simp [h, h2, this]

theorem findDevice_iff_isFirst (env : Env) (p : Platform) (id : JSVal) (k : Nat)
    (a : Accessory) :
    findDevice env p id = some (k, a) ↔ IsFirst (deviceHasKey env p id) p.devices k a := by
  unfold findDevice
  rw [findDeviceFrom_some]
  constructor
  · rintro ⟨j, hk, hj⟩
    have : k = j := by omega
    subst this
    exact hj
  · intro h
    exact ⟨k, by omega, h⟩

theorem findSensor_iff_isFirst (env : Env) (p : Platform) (id : JSVal) (k : Nat)
    (a : SensorAccessory) :
    findSensor env p id = some (k, a) ↔ IsFirst (sensorHasKey env id) p.sensors k a := by
  unfold findSensor
  rw [findSensorFrom_some]
  constructor
  · rintro ⟨j, hk, hj⟩
    have : k = j := by omega
    subst this
    exact hj
  · intro h
    exact ⟨k, by omega, h⟩

/-- C4: `findDevice` and `findSensor` return the first accessory in list
order whose device id or device name equals the key, and return `undefined`
(never an exception) exactly when no accessory has such an id or name. -/
theorem findDevice_findSensor_first_match (env : Env) (p : Platform) (id : JSVal) :
    (∀ k a, findDevice env p id = some (k, a) ↔ IsFirst (deviceHasKey env p id) p.devices k a)
    ∧ (findDevice env p id = none ↔ ∀ a ∈ p.devices, deviceHasKey env p id a = false)
    ∧ (∀ k a, findSensor env p id = some (k, a) ↔ IsFirst (sensorHasKey env id) p.sensors k a)
    ∧ (findSensor env p id = none ↔ ∀ a ∈ p.sensors, sensorHasKey env id a = false) :=
  ⟨findDevice_iff_isFirst env p id, findDeviceFrom_none env p id p.devices 0,
   findSensor_iff_isFirst env p id, findSensorFrom_none env id p.sensors 0⟩

/-! ## Event handlers -/

theorem findSensor_getElem (env : Env) (p : Platform) (id : JSVal) (i : Nat)
    (a : SensorAccessory) (h : findSensor env p id = some (i, a)) : p.sensors[i]? = some a := by
  unfold findSensor at h
  obtain ⟨j, hj, hfirst⟩ := (findSensorFrom_some env id p.sensors 0 i a).1 h
  have : i = j := by omega
  subst this
  exact hfirst.1

theorem getElem?_set_of_getElem? {α : Type} (l : List α) (i : Nat) (a b : α)
    (h : l[i]? = some a) : (l.set i b)[i]? = some b := by
  have hi : i < l.length := by
    by_contra hc
    rw [List.getElem?_eq_none (by omega)] at h
    cases h
  rw [List.getElem?_set_self hi]

/-- C1: for an event with protocol `temperaturehumidity` routed to a
registered sensor, type 1 sets the sensor's temperature to the event value
and type 2 sets its humidity to the event value; the other reading and all
other fields keep their values, and the timestamp becomes the event
timestamp. -/
theorem sensor_event_combined_channel (env : Env) (p : Platform) (id : JSVal) (model : String)
    (value timestamp : JSVal) (i : Nat) (a : SensorAccessory)
    (h : findSensor env p id = some (i, a)) :
    (sensorEventHandler env p id "temperaturehumidity" model 1 value timestamp).sensors[i]?
        = some { device := { a.device with
                   temperature := some value, timestamp := some timestamp } }
    ∧ (sensorEventHandler env p id "temperaturehumidity" model 2 value timestamp).sensors[i]?
        = some { device := { a.device with
                   humidity := some value, timestamp := some timestamp } } := by
  have hi := findSensor_getElem env p id i a h
  constructor
  · simp only [sensorEventHandler, h]
    rw [getElem?_set_of_getElem? _ _ _ _ hi]
    simp [updateReading]
  · simp only [sensorEventHandler, h]
    rw [getElem?_set_of_getElem? _ _ _ _ hi]
    simp [updateReading]

/-- C1 at a concrete state: after startup from `homeConfig`, sensor 11
holds temperature 19.0 and humidity 40; an event for it with type 1 and value
21.5 at time 200 changes the temperature and the timestamp only. -/
theorem sensor_event_combined_channel_witness :
    construct sampleEnv homeConfig [] homeSensors = some homeStartup
    ∧ findSensor sampleEnv homeStartup (.num 11) = some (0, atticSensor)
    ∧ (sensorEventHandler sampleEnv homeStartup (.num 11) "temperaturehumidity"
          "temperaturehumidity" 1 (.str "21.5") (.num 200)).sensors[0]?
        = some { device := { atticSensor.device with
                   temperature := some (.str "21.5"), timestamp := some (.num 200) } } :=
  ⟨by decide, by decide,
   (sensor_event_combined_channel sampleEnv homeStartup (.num 11) "temperaturehumidity"
      (.str "21.5") (.num 200) 0 atticSensor (by decide)).1⟩

theorem deref_modify_same (p : Platform) (ref : Ref) (f : Device → Device) :
    (p.modify ref f).deref ref = (p.deref ref).map f := by
  cases ref with
  | config i =>
    unfold Platform.modify Platform.deref
    cases hc : p.configDevices with
    | none => simp [hc]
    | some devices => simp [List.getElem?_modify_eq]
  | adopted i =>
    unfold Platform.modify Platform.deref
    simp [List.getElem?_modify_eq]

theorem deref_modify_ne (p : Platform) (ref other : Ref) (f : Device → Device)
    (h : other ≠ ref) : (p.modify ref f).deref other = p.deref other := by
  cases ref with
  | config i =>
    unfold Platform.modify
    cases hc : p.configDevices with
    | none => rfl
    | some devices =>
      cases other with
      | config j =>
        have hij : i ≠ j := fun e => h (by rw [e])
        simp [Platform.deref, hc, List.getElem?_modify_ne _ _ hij]
      | adopted j => simp [Platform.deref]
  | adopted i =>
    unfold Platform.modify
    cases other with
    | config j => simp [Platform.deref]
    | adopted j =>
      have hij : i ≠ j := fun e => h (by rw [e])
      simp [Platform.deref, List.getElem?_modify_ne _ _ hij]

theorem findDevice_deref (env : Env) (p : Platform) (id : JSVal) (i : Nat) (a : Accessory)
    (h : findDevice env p id = some (i, a)) : ∃ d, p.deref a.device = some d := by
  unfold findDevice at h
  obtain ⟨j, -, -, hkey, -⟩ := (findDeviceFrom_some env p id p.devices 0 i a).1 h
  unfold deviceHasKey at hkey
  cases hd : p.deref a.device with
  | none => simp [hd] at hkey
  | some d => exact ⟨d, rfl⟩

/-- C9: a device-state event whose id is neither the id nor the name of a
registered device emits nothing and changes no device object, registry or
sensor (it only logs); an event that matches sets the state of the matched
accessory's device object to `status.name == "ON"`, keeps its other fields
and every other device object and sensor, and emits one `stateChanged`
carrying the new state. The handler is a total function: it never throws. -/
theorem device_event_frame (env : Env) (p : Platform) (id : JSVal) (status : String) :
    ((∀ a ∈ p.devices, deviceHasKey env p id a = false) →
      (deviceEventHandler env p id status).emitted = p.emitted
      ∧ (∀ ref, (deviceEventHandler env p id status).deref ref = p.deref ref)
      ∧ (deviceEventHandler env p id status).devices = p.devices
      ∧ (deviceEventHandler env p id status).sensors = p.sensors
      ∧ (deviceEventHandler env p id status).hw = p.hw
      ∧ (deviceEventHandler env p id status).log = p.log ++ [LogEntry.deviceNotFound id])
    ∧ (∀ i a, findDevice env p id = some (i, a) →
      ∃ d, p.deref a.device = some d
        ∧ (deviceEventHandler env p id status).deref a.device
            = some { d with state := some (status == "ON") }
        ∧ ((status == "ON") = true ↔ status = "ON")
        ∧ (∀ ref, ref ≠ a.device → (deviceEventHandler env p id status).deref ref = p.deref ref)
        ∧ (deviceEventHandler env p id status).devices = p.devices
        ∧ (deviceEventHandler env p id status).sensors = p.sensors
        ∧ (deviceEventHandler env p id status).hw = p.hw
        ∧ (deviceEventHandler env p id status).emitted
            = p.emitted ++ [Emission.stateChanged i (status == "ON")]) := by
  constructor
  · intro hmiss
    have hnone : findDevice env p id = none :=
      (findDeviceFrom_none env p id p.devices 0).2 hmiss
    have hrun : deviceEventHandler env p id status
        = { p with log := p.log ++ [LogEntry.deviceNotFound id] } := by
      simp only [deviceEventHandler, hnone]
    rw [hrun]
    refine ⟨rfl, fun ref => ?_, rfl, rfl, rfl, rfl⟩
    cases ref <;> rfl
  · intro i a hfind
    obtain ⟨d, hd⟩ := findDevice_deref env p id i a hfind
    refine ⟨d, hd, ?_, by simp, fun ref hne => ?_, ?_, ?_, ?_, ?_⟩
    · simp only [deviceEventHandler, hfind]
      have := deref_modify_same p a.device (fun device => { device with state := some (status == "ON") })
      rw [hd] at this
      simpa [Platform.deref] using this
    · simp only [deviceEventHandler, hfind]
      have := deref_modify_ne p a.device ref
        (fun device => { device with state := some (status == "ON") }) hne
      simpa [Platform.deref] using this
    · simp only [deviceEventHandler, hfind]
      cases a.device <;> simp only [Platform.modify] <;> cases p.configDevices <;> rfl
    · simp only [deviceEventHandler, hfind]
      cases a.device <;> simp only [Platform.modify] <;> cases p.configDevices <;> rfl
    · simp only [deviceEventHandler, hfind]
      cases a.device <;> simp only [Platform.modify] <;> cases p.configDevices <;> rfl
    · simp only [deviceEventHandler, hfind]
      cases a.device <;> simp only [Platform.modify] <;> cases p.configDevices <;> rfl

/-- C9 at a concrete state: after startup from `homeConfig`, an event for
the unknown id 7 emits nothing and leaves the device objects as they are, and
an ON event for id 1 turns the first device on. -/
theorem device_event_frame_witness :
    construct sampleEnv homeConfig [] homeSensors = some homeStartup
    ∧ (deviceEventHandler sampleEnv homeStartup (.num 7) "ON").emitted = homeStartup.emitted
    ∧ (deviceEventHandler sampleEnv homeStartup (.num 7) "ON").deref (.config 0)
        = homeStartup.deref (.config 0)
    ∧ findDevice sampleEnv homeStartup (.num 1)
        = some (0, { kind := .switch, device := .config 0 })
    ∧ ∃ d, homeStartup.deref (.config 0) = some d
        ∧ (deviceEventHandler sampleEnv homeStartup (.num 1) "ON").deref (.config 0)
            = some { d with state := some true } :=
  have hmiss := (device_event_frame sampleEnv homeStartup (.num 7) "ON").1 (by decide)
  have hhit := (device_event_frame sampleEnv homeStartup (.num 1) "ON").2 0
    { kind := .switch, device := .config 0 } (by decide)
  ⟨by decide, hmiss.1, hmiss.2.1 (.config 0), by decide,
   hhit.elim (fun d hd => ⟨d, hd.1, hd.2.1⟩)⟩

/-! ## Sensor ingest -/

theorem foldl_ingestEntry_concat (device : SensorDevice) (data : List SensorEntry)
    (entry : SensorEntry) :
    (data ++ [entry]).foldl ingestEntry device = ingestEntry (data.foldl ingestEntry device) entry := by
  simp [List.foldl_append]

theorem foldl_ingestEntry_timestamp (device : SensorDevice) (data : List SensorEntry) :
    (data.foldl ingestEntry device).timestamp
      = match data.getLast? with
        | some entry => some entry.timestamp
        | none => device.timestamp := by
  induction data using List.reverseRecOn with
  | nil => rfl
  | append_singleton data entry ih =>
    rw [foldl_ingestEntry_concat]
    simp [ingestEntry]

theorem foldl_ingestEntry_temperature (device : SensorDevice) (data : List SensorEntry) :
    (data.foldl ingestEntry device).temperature
      = match lastValueOfType "TEMPERATURE" data with
        | some value => some value
        | none => device.temperature := by
  induction data using List.reverseRecOn with
  | nil => rfl
  | append_singleton data entry ih =>
    rw [foldl_ingestEntry_concat]
    unfold lastValueOfType at ih ⊢
    by_cases ht : entry.type = "TEMPERATURE"
    · by_cases hh : entry.type = "HUMIDITY"
      · exact absurd (ht.symm.trans hh) (by decide)
      · simp [ingestEntry, ht, List.filter_append]
    · by_cases hh : entry.type = "HUMIDITY"
      · simpa [ingestEntry, ht, hh, List.filter_append] using ih
      · simpa [ingestEntry, ht, hh, List.filter_append] using ih

theorem foldl_ingestEntry_humidity (device : SensorDevice) (data : List SensorEntry) :
    (data.foldl ingestEntry device).humidity
      = match lastValueOfType "HUMIDITY" data with
        | some value => some value
        | none => device.humidity := by
  induction data using List.reverseRecOn with
  | nil => rfl
  | append_singleton data entry ih =>
    rw [foldl_ingestEntry_concat]
    unfold lastValueOfType at ih ⊢
    by_cases hh : entry.type = "HUMIDITY"
    · by_cases ht : entry.type = "TEMPERATURE"
      · exact absurd (ht.symm.trans hh) (by decide)
      · simp [ingestEntry, hh, List.filter_append]
    · by_cases ht : entry.type = "TEMPERATURE"
      · simpa [ingestEntry, ht, hh, List.filter_append] using ih
      · simpa [ingestEntry, ht, hh, List.filter_append] using ih

theorem newSensorDevice_blank (env : Env) (config : ConfigSensor) (item : HwSensor) :
    (newSensorDevice env config item).temperature = none
    ∧ (newSensorDevice env config item).humidity = none := by
  simp only [newSensorDevice]
  by_cases h1 : item.model = "EA4C" <;> by_cases h2 : item.model = "1A2D" <;>
    simp [h1, h2, apply_ite]

/-- C7: for a hardware sensor matched by a configuration entry whose payload
has a non-empty data list, the device object built at startup holds the value
of the last TEMPERATURE entry in list order as temperature (undefined when
there is none), the value of the last HUMIDITY entry as humidity, and the
timestamp of the last entry of the list as timestamp, whatever the entries'
timestamps are; when its normalised model is one of the three sensor roles
this device object is the one registered. -/
theorem sensor_ingest_last_in_list (env : Env) (p : Platform) (item : HwSensor)
    (sensors : List ConfigSensor) (config : ConfigSensor) (data : List SensorEntry)
    (hsensors : p.configSensors = some sensors)
    (hconfig : sensors.find? (fun iterator => looseEq env iterator.id (.num item.id)) = some config)
    (hdata : item.data = some data) (hne : data ≠ []) :
    (buildSensorDevice env config item).temperature = lastValueOfType "TEMPERATURE" data
    ∧ (buildSensorDevice env config item).humidity = lastValueOfType "HUMIDITY" data
    ∧ (buildSensorDevice env config item).timestamp
        = some ((data.getLast hne).timestamp)
    ∧ ((buildSensorDevice env config item).model = "humidity"
        ∨ (buildSensorDevice env config item).model = "temperature"
        ∨ (buildSensorDevice env config item).model = "temperaturehumidity" →
      ingestSensor env p item
        = some { p with sensors := p.sensors ++ [{ device := buildSensorDevice env config item }] }) := by
  refine ⟨?_, ?_, ?_, ?_⟩
  · simp only [buildSensorDevice, hdata]
    rw [foldl_ingestEntry_temperature, (newSensorDevice_blank env config item).1]
    cases lastValueOfType "TEMPERATURE" data <;> rfl
  · simp only [buildSensorDevice, hdata]
    rw [foldl_ingestEntry_humidity, (newSensorDevice_blank env config item).2]
    cases lastValueOfType "HUMIDITY" data <;> rfl
  · simp only [buildSensorDevice, hdata]
    rw [foldl_ingestEntry_timestamp, List.getLast?_eq_getLast _ hne]
  · intro hmodel
    simp only [ingestSensor, hsensors, hconfig]
    rw [if_pos hmodel]

/-- C7 at a concrete payload: temperatures 20 then 22 and humidity 55, with
decreasing timestamps 900, 700, 500. -/
theorem sensor_ingest_last_in_list_witness :
    (buildSensorDevice sampleEnv { id := .num 31, name := "porch" } sampleHwSensor).temperature
        = some (.str "22")
    ∧ (buildSensorDevice sampleEnv { id := .num 31, name := "porch" } sampleHwSensor).humidity
        = some (.str "55")
    ∧ (buildSensorDevice sampleEnv { id := .num 31, name := "porch" } sampleHwSensor).timestamp
        = some (.num 500)
    ∧ (ingestSensor sampleEnv sampleBeforeSensors sampleHwSensor).map (fun q => q.sensors.length)
        = some 1 :=
  have h := sensor_ingest_last_in_list sampleEnv sampleBeforeSensors sampleHwSensor
    [{ id := .num 31, name := "porch" }] { id := .num 31, name := "porch" }
    [{ type := "TEMPERATURE", value := .str "20", timestamp := .num 900 },
     { type := "HUMIDITY", value := .str "55", timestamp := .num 700 },
     { type := "TEMPERATURE", value := .str "22", timestamp := .num 500 }]
    rfl (by decide) rfl (by decide)
  ⟨h.1.trans (by decide), h.2.1.trans (by decide), h.2.2.1.trans (by decide), by decide⟩

/-! ## Accessory selection in the enumeration pass -/

theorem withInitialState_fields (item : HwDevice) (device : Device) :
    (withInitialState item device).model = device.model
    ∧ (withInitialState item device).type
        = (if device.type = none then some "switch" else device.type)
    ∧ (withInitialState item device).uuid = device.uuid
    ∧ (withInitialState item device).id = device.id
    ∧ (withInitialState item device).name = device.name := by
  unfold withInitialState
  by_cases h : device.type = none <;> simp [h]

theorem store_devices_log (p : Platform) (ref : Ref) (device : Device) :
    (p.store ref device).devices = p.devices ∧ (p.store ref device).log = p.log := by
  cases ref with
  | config i =>
    cases h : p.configDevices <;> simp [Platform.store, h]
  | adopted i =>
    by_cases h : i < p.adopted.length <;> simp [Platform.store, h]

/-- C8: for a hardware device of kind DEVICE the enumeration step decides by
the model and then the type of the device object the item resolves to. With
model `selflearning-switch` or `codeswitch`: type `motion-sensor` or
`occupancy-sensor` adds a motion-sensor accessory, `notification-switch` adds
a notification accessory, `lightbulb`, `outlet`, `switch` or an unset type
adds a switch accessory, all without logging, and any other type string adds
a switch accessory and logs the unknown type. With any other model no
accessory is added and nothing is logged. A device object synthesised for an
item without configuration entry has the model of the item. -/
theorem accessory_selection (env : Env) (p : Platform) (item : HwDevice)
    (hkind : item.type = "DEVICE") :
    ((resolveDevice env p item).2.model = "selflearning-switch"
        ∨ (resolveDevice env p item).2.model = "codeswitch" →
      ((resolveDevice env p item).2.type = some "motion-sensor"
          ∨ (resolveDevice env p item).2.type = some "occupancy-sensor" →
        (enumerateItem env p item).devices
            = p.devices ++ [{ kind := .motionSensor, device := (resolveDevice env p item).1 }]
          ∧ (enumerateItem env p item).log = p.log)
      ∧ ((resolveDevice env p item).2.type = some "notification-switch" →
        (enumerateItem env p item).devices
            = p.devices ++ [{ kind := .notificationSwitch, device := (resolveDevice env p item).1 }]
          ∧ (enumerateItem env p item).log = p.log)
      ∧ ((resolveDevice env p item).2.type = some "lightbulb"
          ∨ (resolveDevice env p item).2.type = some "outlet"
          ∨ (resolveDevice env p item).2.type = some "switch"
          ∨ (resolveDevice env p item).2.type = none →
        (enumerateItem env p item).devices
            = p.devices ++ [{ kind := .switch, device := (resolveDevice env p item).1 }]
          ∧ (enumerateItem env p item).log = p.log)
      ∧ (∀ t, (resolveDevice env p item).2.type = some t →
          t ≠ "motion-sensor" → t ≠ "occupancy-sensor" → t ≠ "notification-switch" →
          t ≠ "lightbulb" → t ≠ "outlet" → t ≠ "switch" →
        (enumerateItem env p item).devices
            = p.devices ++ [{ kind := .switch, device := (resolveDevice env p item).1 }]
          ∧ (enumerateItem env p item).log = p.log ++ [LogEntry.unknownType t]))
    ∧ ((resolveDevice env p item).2.model ≠ "selflearning-switch" →
        (resolveDevice env p item).2.model ≠ "codeswitch" →
      (enumerateItem env p item).devices = p.devices
        ∧ (enumerateItem env p item).log = p.log)
    ∧ (∀ i, (resolveDevice env p item).1 = Ref.adopted i →
        (resolveDevice env p item).2.model = item.model) := by
  rcases hres : resolveDevice env p item with ⟨ref, device⟩
  simp only
  refine ⟨fun hmodel => ⟨?_, ?_, ?_, ?_⟩, ?_, ?_⟩
  · intro htype
    unfold enumerateItem
    rw [if_pos hkind, hres]
    rcases htype with htype | htype <;>
      simp [hmodel, htype, store_devices_log, withInitialState_fields]
  · intro htype
    unfold enumerateItem
    rw [if_pos hkind, hres]
    simp [hmodel, htype, store_devices_log, withInitialState_fields]
  · intro htype
    unfold enumerateItem
    rw [if_pos hkind, hres]
    rcases htype with htype | htype | htype | htype <;>
      simp [hmodel, htype, store_devices_log, withInitialState_fields]
  · intro t htype h1 h2 h3 h4 h5 h6
    unfold enumerateItem
    rw [if_pos hkind, hres]
    simp [hmodel, htype, store_devices_log, withInitialState_fields, h1, h2, h3, h4, h5, h6]
  · intro h1 h2
    unfold enumerateItem
    rw [if_pos hkind, hres]
    have hmodel : ¬ (device.model = "selflearning-switch" ∨ device.model = "codeswitch") := by
      simp [h1, h2]
    simp [h1, h2, store_devices_log, withInitialState_fields]
  · intro i hi
    unfold resolveDevice at hres
    revert hres
    split
    · simp only
      split
      · intro hres
        simp only [Prod.mk.injEq] at hres
        rw [← hres.1] at hi
        cases hi
      · intro hres
        simp only [Prod.mk.injEq] at hres
        rw [← hres.2]
    · intro hres
      simp only [Prod.mk.injEq] at hres
      rw [← hres.2]

/-- C8 at a concrete table: the item configured as `motion-sensor` yields a
motion-sensor accessory without a log entry, the item configured with the
unrecognised type `dimmer` yields a switch accessory and a warning. -/
theorem accessory_selection_witness :
    sampleBeforeEnumeration.hw = [sampleHall, sampleDimmer]
    ∧ ((enumerateItem sampleEnv sampleBeforeEnumeration sampleHall).devices
        = [{ kind := .motionSensor, device := .config 0 }]
      ∧ (enumerateItem sampleEnv sampleBeforeEnumeration sampleHall).log
        = sampleBeforeEnumeration.log)
    ∧ ((enumerateItem sampleEnv sampleBeforeEnumeration sampleDimmer).devices
        = [{ kind := .switch, device := .config 1 }]
      ∧ (enumerateItem sampleEnv sampleBeforeEnumeration sampleDimmer).log
        = sampleBeforeEnumeration.log ++ [LogEntry.unknownType "dimmer"]) :=
  have h1 := ((accessory_selection sampleEnv sampleBeforeEnumeration sampleHall rfl).1
    (by decide)).1 (by decide)
  have h2 := ((accessory_selection sampleEnv sampleBeforeEnumeration sampleDimmer rfl).1
    (by decide)).2.2.2 "dimmer" (by decide) (by decide) (by decide) (by decide) (by decide)
    (by decide) (by decide)
  ⟨by decide, ⟨h1.1.trans (by decide), h1.2⟩, ⟨h2.1.trans (by decide), h2.2⟩⟩

/-! ## Raw frames -/

theorem getProperty_setProperty (packet : Packet) (k key : String) (v : JSVal)
    (hproto : getProperty packet "__proto__" = none) :
    getProperty (setProperty packet k v) key
      = if key = k ∧ k ≠ "__proto__" then some v else getProperty packet key := by
  induction packet with
  | nil =>
    by_cases hk : k = "__proto__"
    · simp [setProperty, getProperty, hk]
    · by_cases hkey : key = k
      · simp [setProperty, getProperty, hk, hkey]
      · have : ¬ k = key := fun e => hkey e.symm
        simp [setProperty, getProperty, hk, hkey, this]
  | cons x rest ih =>
    obtain ⟨k0, v0⟩ := x
    have hk0 : k0 ≠ "__proto__" := by
      intro e
      simp [getProperty, e] at hproto
    have hrest : getProperty rest "__proto__" = none := by
      simpa [getProperty, hk0] using hproto
    by_cases h0 : k0 = k
    · subst h0
      by_cases hkey : key = k0
      · subst hkey
        simp [setProperty, getProperty, hk0]
      · have : ¬ k0 = key := fun e => hkey e.symm
        simp [setProperty, getProperty, hkey, this]
    · by_cases hkey : k0 = key
      · subst hkey
        simp [setProperty, getProperty, h0]
      · simp [setProperty, getProperty, h0, hkey, ih hrest]

theorem addRawItem_eq (packet : Packet) (item : String) :
    addRawItem packet item
      = match keyValue item with
        | some pair => setProperty packet pair.1 (.str pair.2)
        | none => packet := by
  unfold addRawItem keyValue
  split <;> simp_all

theorem foldl_addRawItem_property (items : List String) (packet : Packet) (key : String)
    (hproto : getProperty packet "__proto__" = none) :
    getProperty (items.foldl addRawItem packet) "__proto__" = none
    ∧ getProperty (items.foldl addRawItem packet) key
      = if key = "__proto__" then none
        else match lastPairValue key (items.filterMap keyValue) with
          | some value => some (.str value)
          | none => getProperty packet key := by
  induction items using List.reverseRecOn with
  | nil =>
    refine ⟨hproto, ?_⟩
    by_cases hkey : key = "__proto__"
    · simp [hkey, hproto]
    · simp [hkey, lastPairValue]
  | append_singleton items item ih =>
    obtain ⟨ihp, ih⟩ := ih
    rw [List.foldl_append, List.foldl_cons, List.foldl_nil, addRawItem_eq]
    cases hkv : keyValue item with
    | none =>
      refine ⟨ihp, ?_⟩
      simp only [List.filterMap_append, List.filterMap_cons, hkv, List.filterMap_nil,
        List.append_nil]
      exact ih
    | some pair =>
      simp only
      refine ⟨?_, ?_⟩
      · rw [getProperty_setProperty _ _ _ _ ihp]
        by_cases hk : pair.1 = "__proto__"
        · simp [hk, ihp]
        · have : ¬ "__proto__" = pair.1 := fun e => hk e.symm
          simp [this, ihp]
      · rw [getProperty_setProperty _ _ _ _ ihp, ih]
        simp only [List.filterMap_append, List.filterMap_cons, hkv, List.filterMap_nil]
        unfold lastPairValue
        by_cases hkey : key = "__proto__"
        · simp only [hkey, if_true, ite_eq_right_iff, and_imp]
          intro h1 h2
          exact absurd h1.symm h2
        · by_cases hk : key = pair.1
          · have hne : pair.1 ≠ "__proto__" := fun e => hkey (hk.trans e)
            simp [hkey, hk, hne, List.filter_append]
          · have : ¬ pair.1 = key := fun e => hk e.symm
            simp [hkey, hk, this, List.filter_append]

theorem splitChars_length (sep : Char) (cs : List Char) :
    (splitChars sep cs).length = cs.count sep + 1 := by
  induction cs with
  | nil => rfl
  | cons c cs ih =>
    unfold splitChars
    by_cases h : c = sep
    · subst h
      simp [ih]
    · have hne : sep ≠ c := fun e => h e.symm
      rw [if_neg h, List.count_cons_of_ne hne]
      cases hs : splitChars sep cs with
      | nil => rw [hs] at ih; simp at ih
      | cons w ws => rw [hs] at ih; simpa using ih

theorem keyValue_isSome (item : String) :
    (keyValue item).isSome = true ↔ item.data.count ':' = 1 := by
  have hlen := splitChars_length ':' item.data
  unfold keyValue split
  cases hs : splitChars ':' item.data with
  | nil => rw [hs] at hlen; simp at hlen
  | cons a rest =>
    rw [hs] at hlen
    cases rest with
    | nil =>
      simp only [List.length_cons, List.length_nil] at hlen
      simp only [List.map_cons, List.map_nil, Option.isSome_none]
      constructor
      · intro h; cases h
      · intro h; omega
    | cons b rest2 =>
      cases rest2 with
      | nil =>
        simp only [List.length_cons, List.length_nil] at hlen
        simp only [List.map_cons, List.map_nil, Option.isSome_some, true_iff]
        omega
      | cons c rest3 =>
        simp only [List.length_cons] at hlen
        simp only [List.map_cons, Option.isSome_none]
        constructor
        · intro h; cases h
        · intro h; omega

/-- C10, as the code has it: the packet holds, for every key other than
`__proto__`, the value of the last `;`-separated entry of the payload that
splits on `:` into exactly that key and a value; a key without such an entry
is absent, except `id`, which then holds the event id. Hence an entry with
key `id` replaces the event id, and an entry with key `__proto__` adds
nothing. The entries that split into exactly two parts are those with exactly
one `:`. -/
theorem raw_packet_properties (id : JSVal) (data key : String) :
    getProperty (rawPacket id data) key
      = (if key = "__proto__" then none
         else match lastPairValue key (rawPairs data) with
           | some value => some (.str value)
           | none => if key = "id" then some id else none)
    ∧ ∀ item, (keyValue item).isSome = true ↔ item.data.count ':' = 1 := by
  refine ⟨?_, keyValue_isSome⟩
  unfold rawPacket rawPairs
  rw [(foldl_addRawItem_property (split ';' data) [("id", id)] key (by simp [getProperty])).2]
  by_cases hkey : key = "__proto__"
  · simp [hkey]
  · by_cases hid : key = "id"
    · subst hid
      simp [getProperty]
    · have : ¬ "id" = key := fun e => hid e.symm
      simp [hkey, hid, getProperty, this]

/-- C10 fails as stated: a payload entry `id:7` replaces the event id 1 in
the packet, and the well-formed entry `__proto__:x` adds no pair. -/
theorem raw_packet_id_overridden :
    getProperty (rawPacket (.num 1) "class:sensor;id:7;") "id" = some (.str "7")
    ∧ getProperty (rawPacket (.num 1) "class:sensor;id:7;") "id" ≠ some (.num 1)
    ∧ keyValue "__proto__:x" = some ("__proto__", "x")
    ∧ getProperty (rawPacket (.num 1) "__proto__:x") "__proto__" = none := by
  refine ⟨by decide, by decide, by decide, by decide⟩

/-! ## Identity: the joined attribute string -/

theorem splitChars_of_not_mem (sep : Char) (x : List Char) (h : sep ∉ x) :
    splitChars sep x = [x] := by
  induction x with
  | nil => rfl
  | cons c cs ih =>
    have hc : c ≠ sep := fun e => h (by simp [e])
    have hcs : sep ∉ cs := fun e => h (by simp [e])
    simp [splitChars, hc, ih hcs]

theorem splitChars_append_sep (sep : Char) (x rest : List Char) (h : sep ∉ x) :
    splitChars sep (x ++ sep :: rest) = x :: splitChars sep rest := by
  induction x with
  | nil => simp [splitChars]
  | cons c cs ih =>
    have hc : c ≠ sep := fun e => h (by simp [e])
    have hcs : sep ∉ cs := fun e => h (by simp [e])
    simp [splitChars, hc, ih hcs]

theorem split_join (parts : List String) (hne : parts ≠ [])
    (h : ∀ part ∈ parts, ':' ∉ part.data) : split ':' (join ":" parts) = parts := by
  induction parts with
  | nil => exact absurd rfl hne
  | cons x rest ih =>
    cases rest with
    | nil =>
      have hx := h x (by simp)
      simp [split, join, splitChars_of_not_mem _ _ hx]
    | cons y rest =>
      have hx := h x (by simp)
      have ih2 := ih (by simp) (fun part hp => h part (by simp [hp]))
      unfold split at ih2 ⊢
      have hdata : (join ":" (x :: y :: rest)).data
          = x.data ++ ':' :: (join ":" (y :: rest)).data := by
        simp [join, String.data_append]
      rw [hdata, splitChars_append_sep _ _ _ hx, List.map_cons, ih2]

theorem join_injective (a b : List String) (ha : a ≠ []) (hb : b ≠ [])
    (hca : ∀ part ∈ a, ':' ∉ part.data) (hcb : ∀ part ∈ b, ':' ∉ part.data)
    (h : join ":" a = join ":" b) : a = b := by
  rw [← split_join a ha hca, ← split_join b hb hcb, h]

theorem foldl_present (f : String → String) (names : List String) (init : List String) :
    names.foldl (fun parameters name =>
        let value := f name
        if value != "" then parameters ++ [value] else parameters) init
      = init ++ (names.map f).filter (fun value => value != "") := by
  induction names generalizing init with
  | nil => simp
  | cons name names ih =>
    simp only [List.foldl_cons, List.map_cons]
    rw [ih]
    by_cases hv : (f name != "") = true
    · simp [hv, List.filter_cons]
    · simp [hv, List.filter_cons]

theorem uniqueKeyParameters_eq (hw : List HwDevice) (id : Int) :
    uniqueKeyParameters hw id
      = [getProtocolSync hw id, getModelSync hw id] ++ presentValues hw id := by
  unfold uniqueKeyParameters presentValues
  exact foldl_present (fun name => getDeviceParameterSync hw id name "") _ _

theorem sampleEnv_generate_injective : Function.Injective sampleEnv.generate := by
  intro a b h
  have hdata := congrArg String.data h
  simp only [sampleEnv, String.data_append] at hdata
  exact String.ext (List.append_cancel_left hdata)

/-- C2, as the code has it: for two hardware devices with the same protocol
and model whose attributes contain no `:`, `getUniqueDeviceKey` passes the
same joined string to the UUID generator exactly when the two devices have
the same list of non-empty parameter values in the order house, group, unit,
code; which parameter a value belongs to does not enter the string. With an
injective generator the two identities are equal in exactly that case. -/
theorem unique_key_string_present_values (env : Env) (hw1 hw2 : List HwDevice) (id1 id2 : Int)
    (hinj : Function.Injective env.generate)
    (h1 : ∀ part ∈ uniqueKeyParameters hw1 id1, ':' ∉ part.data)
    (h2 : ∀ part ∈ uniqueKeyParameters hw2 id2, ':' ∉ part.data)
    (hprotocol : getProtocolSync hw1 id1 = getProtocolSync hw2 id2)
    (hmodel : getModelSync hw1 id1 = getModelSync hw2 id2) :
    uniqueKeyParameters hw1 id1
        = [getProtocolSync hw1 id1, getModelSync hw1 id1] ++ presentValues hw1 id1
    ∧ (uniqueKeyString hw1 id1 = uniqueKeyString hw2 id2
        ↔ presentValues hw1 id1 = presentValues hw2 id2)
    ∧ (getUniqueDeviceKey env hw1 id1 = getUniqueDeviceKey env hw2 id2
        ↔ presentValues hw1 id1 = presentValues hw2 id2) := by
  have hstr : uniqueKeyString hw1 id1 = uniqueKeyString hw2 id2
      ↔ presentValues hw1 id1 = presentValues hw2 id2 := by
    constructor
    · intro h
      have hparams := join_injective _ _
        (by rw [uniqueKeyParameters_eq]; simp) (by rw [uniqueKeyParameters_eq]; simp) h1 h2 h
      rw [uniqueKeyParameters_eq, uniqueKeyParameters_eq, hprotocol, hmodel] at hparams
      exact List.append_cancel_left hparams
    · intro h
      unfold uniqueKeyString
      rw [uniqueKeyParameters_eq, uniqueKeyParameters_eq, hprotocol, hmodel, h]
  refine ⟨uniqueKeyParameters_eq hw1 id1, hstr, ?_⟩
  rw [← hstr]
  unfold getUniqueDeviceKey generateUUID JSVal.toString
  exact ⟨fun h => hinj h, fun h => by rw [h]⟩

/-- C2 at a concrete table: a device with house = 5 and a device with
house = 5 and unit = 1 get different joined strings and identities. -/
theorem unique_key_string_present_values_witness :
    uniqueKeyString sampleKeyTable 1 ≠ uniqueKeyString sampleKeyTable 3
    ∧ getUniqueDeviceKey sampleEnv sampleKeyTable 1
        ≠ getUniqueDeviceKey sampleEnv sampleKeyTable 3 :=
  have h := unique_key_string_present_values sampleEnv sampleKeyTable sampleKeyTable 1 3
    sampleEnv_generate_injective (by decide) (by decide) (by decide) (by decide)
  ⟨fun e => absurd (h.2.1.1 e) (by decide), fun e => absurd (h.2.2.1 e) (by decide)⟩

/-- C2 fails as stated: a device whose only parameter is house = 5 and a
device whose only parameter is group = 5, with the same protocol and model,
get the same joined string `arctech:selflearning-switch:5` and hence the same
identity. -/
theorem unique_key_collision :
    getDeviceParameterSync sampleKeyTable 1 "house" "" = "5"
    ∧ getDeviceParameterSync sampleKeyTable 1 "group" "" = ""
    ∧ getDeviceParameterSync sampleKeyTable 2 "house" "" = ""
    ∧ getDeviceParameterSync sampleKeyTable 2 "group" "" = "5"
    ∧ uniqueKeyString sampleKeyTable 1 = "arctech:selflearning-switch:5"
    ∧ uniqueKeyString sampleKeyTable 2 = "arctech:selflearning-switch:5"
    ∧ getUniqueDeviceKey sampleEnv sampleKeyTable 1
        = getUniqueDeviceKey sampleEnv sampleKeyTable 2 := by
  refine ⟨by decide, by decide, by decide, by decide, by decide, by decide, by decide⟩

/-! ## Registration -/

theorem map_update_of_fresh (hw : List HwDevice) (id : Int) (g : HwDevice → HwDevice)
    (h : ∀ row ∈ hw, row.id ≠ id) :
    hw.map (fun d => if d.id = id then g d else d) = hw := by
  induction hw with
  | nil => rfl
  | cons x rest ih =>
    have hx : x.id ≠ id := h x (by simp)
    simp only [List.map_cons, if_neg hx]
    rw [ih (fun row hr => h row (by simp [hr]))]

theorem hwLookup_append_fresh (hw : List HwDevice) (row : HwDevice) (more : List HwDevice)
    (h : ∀ r ∈ hw, r.id ≠ row.id) : hwLookup (hw ++ row :: more) row.id = some row := by
  unfold hwLookup
  rw [List.find?_append]
  have hnone : hw.find? (fun d => d.id == row.id) = none := by
    rw [List.find?_eq_none]
    intro x hx
    simpa using h x hx
  rw [hnone]
  simp

theorem uniqueKeyString_congr (hw1 hw2 : List HwDevice) (id : Int)
    (h : hwLookup hw1 id = hwLookup hw2 id) :
    uniqueKeyString hw1 id = uniqueKeyString hw2 id := by
  unfold uniqueKeyString uniqueKeyParameters getProtocolSync getModelSync getDeviceParameterSync
  rw [h]

theorem getUniqueDeviceKey_congr (env : Env) (hw1 hw2 : List HwDevice) (id : Int)
    (h : hwLookup hw1 id = hwLookup hw2 id) :
    getUniqueDeviceKey env hw1 id = getUniqueDeviceKey env hw2 id := by
  unfold getUniqueDeviceKey
  rw [uniqueKeyString_congr hw1 hw2 id h]

theorem foldl_setDeviceParameterSync (hw : List HwDevice) (row : HwDevice)
    (parameters : List (String × ParamValue)) (h : ∀ r ∈ hw, r.id ≠ row.id) :
    parameters.foldl
        (fun hw parameter => setDeviceParameterSync hw row.id parameter.1 parameter.2.toString)
        (hw ++ [row])
      = hw ++ [{ row with
                 parameters := parameters.foldl
                   (fun table parameter => setParameter table parameter.1 parameter.2.toString)
                   row.parameters }] := by
  induction parameters generalizing row with
  | nil => rfl
  | cons x rest ih =>
    simp only [List.foldl_cons]
    have hstep : setDeviceParameterSync (hw ++ [row]) row.id x.1 x.2.toString
        = hw ++ [{ row with parameters := setParameter row.parameters x.1 x.2.toString }] := by
      unfold setDeviceParameterSync
      rw [List.map_append, map_update_of_fresh hw row.id _ h]
      simp
    rw [hstep]
    exact ih { row with parameters := setParameter row.parameters x.1 x.2.toString } h

theorem registerDevice_eq (env : Env) (hw : List HwDevice) (device : Device)
    (h : ∀ row ∈ hw, row.id ≠ env.allocId hw) :
    registerDevice env hw device
      = (registered env (env.allocId hw) device, hw ++ [hwRow (env.allocId hw) device]) := by
  have hname : ∀ (row : HwDevice), row.id = env.allocId hw →
      setNameSync (hw ++ [row]) (env.allocId hw) device.name
        = hw ++ [{ row with name := device.name }] := by
    intro row hrow
    unfold setNameSync
    rw [List.map_append, map_update_of_fresh hw _ _ h]
    simp [hrow]
  have hprotocol : ∀ (row : HwDevice), row.id = env.allocId hw →
      setProtocolSync (hw ++ [row]) (env.allocId hw) device.protocol
        = hw ++ [{ row with protocol := device.protocol }] := by
    intro row hrow
    unfold setProtocolSync
    rw [List.map_append, map_update_of_fresh hw _ _ h]
    simp [hrow]
  have hmodel : ∀ (row : HwDevice), row.id = env.allocId hw →
      setModelSync (hw ++ [row]) (env.allocId hw) device.model
        = hw ++ [{ row with model := device.model }] := by
    intro row hrow
    unfold setModelSync
    rw [List.map_append, map_update_of_fresh hw _ _ h]
    simp [hrow]
  unfold registerDevice addDeviceSync
  simp only
  rw [hname _ rfl, hprotocol _ rfl, hmodel _ rfl]
  have hfold := foldl_setDeviceParameterSync hw
    { id := env.allocId hw, name := device.name, protocol := device.protocol,
      model := device.model, parameters := [], type := "DEVICE", status := none }
    device.parameters h
  simp only at hfold
  rw [hfold]
  unfold registered hwRow
  have hkey := getUniqueDeviceKey_congr env
    (hw ++ [hwRow (env.allocId hw) device]) [hwRow (env.allocId hw) device] (env.allocId hw)
    (by
      have h1 := hwLookup_append_fresh hw (hwRow (env.allocId hw) device) [] h
      have h2 := hwLookup_append_fresh [] (hwRow (env.allocId hw) device) [] (by simp)
      simp only [hwRow, List.nil_append] at h1 h2
      simp only [hwRow]
      rw [h1, h2])
  unfold hwRow at hkey
  rw [hkey]

theorem foldl_removeDeviceSync (rows hw : List HwDevice) (h : ∀ row ∈ hw, row ∈ rows) :
    rows.foldl (fun hw device => removeDeviceSync hw device.id) hw = [] := by
  induction rows generalizing hw with
  | nil =>
    cases hw with
    | nil => rfl
    | cons x rest => exact absurd (h x (by simp)) (by simp)
  | cons x rows ih =>
    simp only [List.foldl_cons]
    apply ih
    intro row hrow
    unfold removeDeviceSync at hrow
    rw [List.mem_filter] at hrow
    have hmem := h row hrow.1
    rcases List.mem_cons.1 hmem with heq | hin
    · subst heq
      simp at hrow
    · exact hin

theorem registerLoop_rows (env : Env) (hfresh : FreshIds env) (devices : List Device)
    (hw : List HwDevice) :
    ∃ ids : List Int, ids.length = devices.length ∧ ids.Nodup
      ∧ (∀ id ∈ ids, ∀ row ∈ hw, row.id ≠ id)
      ∧ registerLoop env hw devices
          = (List.zipWith (registered env) ids devices, hw ++ List.zipWith hwRow ids devices) := by
  induction devices generalizing hw with
  | nil => exact ⟨[], rfl, List.nodup_nil, by simp, by simp [registerLoop]⟩
  | cons d rest ih =>
    obtain ⟨ids, hlen, hnodup, hids, heq⟩ := ih (hw ++ [hwRow (env.allocId hw) d])
    refine ⟨env.allocId hw :: ids, by simp [hlen], ?_, ?_, ?_⟩
    · refine List.nodup_cons.2 ⟨fun hmem => ?_, hnodup⟩
      exact hids _ hmem (hwRow (env.allocId hw) d) (by simp) rfl
    · intro id hid row hrow
      rcases List.mem_cons.1 hid with h | h
      · rw [h]
        exact hfresh hw row hrow
      · exact hids id h row (by simp [hrow])
    · unfold registerLoop
      rw [registerDevice_eq env hw d (hfresh hw)]
      simp only [heq, List.zipWith_cons_cons, List.append_assoc, List.singleton_append]

theorem getParameter_setParameter (table : List (String × String)) (k v name : String) :
    getParameter (setParameter table k v) name
      = if name = k then some v else getParameter table name := by
  induction table with
  | nil =>
    by_cases h : name = k
    · simp [setParameter, getParameter, h]
    · have : ¬ k = name := fun e => h e.symm
      simp [setParameter, getParameter, h, this]
  | cons x rest ih =>
    obtain ⟨k0, v0⟩ := x
    by_cases h0 : k0 = k
    · subst h0
      by_cases hkey : name = k0
      · subst hkey
        simp [setParameter, getParameter]
      · have : ¬ k0 = name := fun e => hkey e.symm
        simp [setParameter, getParameter, hkey, this]
    · by_cases hkey : k0 = name
      · subst hkey
        simp [setParameter, getParameter, h0]
      · simp [setParameter, getParameter, h0, hkey, ih]

theorem getParameter_foldl (parameters : List (String × ParamValue))
    (table : List (String × String)) (name : String) :
    getParameter (parameters.foldl
        (fun table parameter => setParameter table parameter.1 parameter.2.toString) table) name
      = match configParameter parameters name with
        | some value => some value
        | none => getParameter table name := by
  induction parameters using List.reverseRecOn with
  | nil => rfl
  | append_singleton parameters x ih =>
    rw [List.foldl_append, List.foldl_cons, List.foldl_nil, getParameter_setParameter, ih]
    unfold configParameter
    by_cases h : name = x.1
    · simp [h, List.filter_append]
    · have : ¬ x.1 = name := fun e => h e.symm
      simp [h, this, List.filter_append]

theorem hwRow_mirrors (id : Int) (device : Device) : Mirrors (hwRow id device) device := by
  refine ⟨rfl, rfl, rfl, fun name => ?_⟩
  unfold hwRow
  simp only
  rw [getParameter_foldl]
  cases configParameter device.parameters name <;> rfl

theorem zipWith_hwRow_mirrors (ids : List Int) (devices : List Device)
    (h : ids.length = devices.length) :
    List.Forall₂ Mirrors (List.zipWith hwRow ids devices) devices := by
  induction devices generalizing ids with
  | nil => cases ids <;> simp
  | cons d rest ih =>
    cases ids with
    | nil => simp at h
    | cons id ids =>
      simp only [List.zipWith_cons_cons, List.forall₂_cons]
      exact ⟨hwRow_mirrors id d, ih ids (by simpa using h)⟩

theorem zipWith_hwRow_ids (ids : List Int) (devices : List Device)
    (h : ids.length = devices.length) :
    (List.zipWith hwRow ids devices).map (fun row => row.id) = ids := by
  induction devices generalizing ids with
  | nil => cases ids <;> simp_all
  | cons d rest ih =>
    cases ids with
    | nil => simp at h
    | cons id ids =>
      simp only [List.zipWith_cons_cons, List.map_cons]
      rw [ih ids (by simpa using h)]
      rfl

theorem registerTellstickDevices_eq (env : Env) (hfresh : FreshIds env) (p : Platform)
    (devices : List Device) (hconfig : p.configDevices = some devices) :
    ∃ ids : List Int, ids.length = devices.length ∧ ids.Nodup
      ∧ registerTellstickDevices env p
          = { p with
              hw := List.zipWith hwRow ids devices
              configDevices := some (List.zipWith (registered env) ids devices)
              log := p.log ++ (List.zipWith (registered env) ids devices).map
                (fun device => LogEntry.registering device.name) }
      ∧ registerLoop env [] devices
          = (List.zipWith (registered env) ids devices, List.zipWith hwRow ids devices) := by
  obtain ⟨ids, hlen, hnodup, -, heq⟩ := registerLoop_rows env hfresh devices []
  refine ⟨ids, hlen, hnodup, ?_, by simpa using heq⟩
  unfold registerTellstickDevices
  simp only [hconfig]
  rw [foldl_removeDeviceSync (getDevicesSync p.hw) p.hw (fun row h => h), heq]
  simp

theorem foldl_max_bound (hw : List HwDevice) (acc : Int) :
    acc ≤ hw.foldl (fun m d => max m d.id) acc
    ∧ ∀ row ∈ hw, row.id ≤ hw.foldl (fun m d => max m d.id) acc := by
  induction hw generalizing acc with
  | nil => simp
  | cons x rest ih =>
    simp only [List.foldl_cons, List.mem_cons, forall_eq_or_imp]
    have h := ih (max acc x.id)
    refine ⟨le_trans (le_max_left _ _) h.1, le_trans (le_max_right _ _) h.1, h.2⟩

theorem sampleEnv_fresh : FreshIds sampleEnv := by
  intro hw row hrow heq
  have h := (foldl_max_bound hw 0).2 row hrow
  simp only [sampleEnv, nextId] at heq
  omega

/-- C5: when the configuration supplies a device list (possibly empty) and
the driver hands out unused ids, the hardware table after
`registerTellstickDevices` has one row per configured device, in order, each
carrying that entry's name, protocol, model and parameters, under pairwise
distinct ids, and it does not depend on the prior table, so no prior device
remains; when no device list is supplied the table is unchanged. -/
theorem register_mirrors_config (env : Env) (hfresh : FreshIds env) (p : Platform) :
    (∀ devices, p.configDevices = some devices →
      List.Forall₂ Mirrors (registerTellstickDevices env p).hw devices
      ∧ ((registerTellstickDevices env p).hw.map (fun row => row.id)).Nodup
      ∧ ∀ prior : List HwDevice,
          (registerTellstickDevices env { p with hw := prior }).hw
            = (registerTellstickDevices env p).hw)
    ∧ (p.configDevices = none → (registerTellstickDevices env p).hw = p.hw) := by
  constructor
  · intro devices hconfig
    obtain ⟨ids, hlen, hnodup, heq, hloop⟩ :=
      registerTellstickDevices_eq env hfresh p devices hconfig
    refine ⟨?_, ?_, fun prior => ?_⟩
    · rw [heq]
      exact zipWith_hwRow_mirrors ids devices hlen
    · rw [heq]
      simp only
      rw [zipWith_hwRow_ids ids devices hlen]
      exact hnodup
    · obtain ⟨ids2, -, -, heq2, hloop2⟩ :=
        registerTellstickDevices_eq env hfresh { p with hw := prior } devices hconfig
      rw [heq, heq2]
      simp only
      rw [hloop] at hloop2
      exact (congrArg Prod.snd hloop2).symm
  · intro hnone
    unfold registerTellstickDevices
    rw [hnone]

/-- C5 at a concrete table: prior devices 4 and 9 and one configured device
`desk`; afterwards the table has exactly one row, which mirrors `desk`, and
neither prior id is left. -/
theorem register_mirrors_config_witness :
    List.Forall₂ Mirrors (registerTellstickDevices sampleEnv sampleBeforeRegistration).hw
      [{ id := none, uuid := none, name := "desk", protocol := "arctech",
         model := "selflearning-switch",
         parameters := [("house", .number 1234), ("unit", .text "3")],
         state := none, type := some "lightbulb" }]
    ∧ (registerTellstickDevices sampleEnv sampleBeforeRegistration).hw
        = [{ id := 1, name := "desk", protocol := "arctech", model := "selflearning-switch",
             parameters := [("house", "1234"), ("unit", "3")], type := "DEVICE",
             status := none }] :=
  ⟨((register_mirrors_config sampleEnv sampleEnv_fresh sampleBeforeRegistration).1 _ rfl).1,
   by decide⟩

/-! ## Enumeration after registration -/

theorem findConfigDevice_some (u : String) (ds : List Device) (k m : Nat) (d : Device)
    (h : findConfigDevice u ds k = some (m, d)) :
    ∃ m0, m = k + m0 ∧ ds[m0]? = some d ∧ d.uuid = some u
      ∧ ∀ j, j < m0 → (ds.map (fun e => e.uuid))[j]? ≠ some (some u) := by
  induction ds generalizing k with
  | nil => simp [findConfigDevice] at h
  | cons x rest ih =>
    unfold findConfigDevice at h
    by_cases hx : x.uuid = some u
    · rw [if_pos hx] at h
      simp only [Option.some.injEq, Prod.mk.injEq] at h
      refine ⟨0, by omega, by simp [h.2], by rw [← h.2]; exact hx, fun j hj => by omega⟩
    · rw [if_neg hx] at h
      obtain ⟨m0, hm, hd, hu, hmin⟩ := ih (k + 1) h
      refine ⟨m0 + 1, by omega, by simpa using hd, hu, fun j hj => ?_⟩
      cases j with
      | zero => simpa using hx
      | succ j => simpa using hmin j (by omega)

theorem findConfigDevice_isSome (u : String) (ds : List Device) (k : Nat)
    (h : ∃ d ∈ ds, d.uuid = some u) : ∃ m d, findConfigDevice u ds k = some (m, d) := by
  induction ds generalizing k with
  | nil => simp at h
  | cons x rest ih =>
    unfold findConfigDevice
    by_cases hx : x.uuid = some u
    · exact ⟨k, x, by rw [if_pos hx]⟩
    · rw [if_neg hx]
      obtain ⟨d, hd, hu⟩ := h
      rcases List.mem_cons.1 hd with heq | hin
      · rw [heq] at hu
        exact absurd hu hx
      · exact ih (k + 1) ⟨d, hin, hu⟩

theorem map_set_same {α β : Type} (f : α → β) (l : List α) (m : Nat) (x d : α)
    (hd : l[m]? = some d) (hf : f x = f d) : (l.set m x).map f = l.map f := by
  induction l generalizing m with
  | nil => simp
  | cons y rest ih =>
    cases m with
    | zero =>
      simp only [List.getElem?_cons_zero, Option.some.injEq] at hd
      simp [hf, hd]
    | succ m =>
      simp only [List.getElem?_cons_succ] at hd
      simp [ih m hd]

theorem hwLookup_rows (ids : List Int) (devices : List Device) (k : Nat) (id : Int)
    (d : Device) (hnodup : ids.Nodup) (hid : ids[k]? = some id) (hd : devices[k]? = some d) :
    hwLookup (List.zipWith hwRow ids devices) id = some (hwRow id d) := by
  induction devices generalizing ids k with
  | nil => simp at hd
  | cons x rest ih =>
    cases ids with
    | nil => simp at hid
    | cons i0 ids =>
      have hn := List.nodup_cons.1 hnodup
      cases k with
      | zero =>
        simp only [List.getElem?_cons_zero, Option.some.injEq] at hid hd
        subst hid hd
        simp [hwLookup, hwRow]
      | succ k =>
        simp only [List.getElem?_cons_succ] at hid hd
        have hne : i0 ≠ id := by
          intro e
          subst e
          exact hn.1 (List.getElem?_mem hid)
        have hrec := ih ids k hn.2 hid hd
        unfold hwLookup at hrec ⊢
        rw [List.zipWith_cons_cons, List.find?_cons_of_neg]
        · exact hrec
        · simpa [hwRow] using hne

theorem getUniqueDeviceKey_rows (env : Env) (ids : List Int) (devices : List Device) (k : Nat)
    (id : Int) (d : Device) (hnodup : ids.Nodup) (hid : ids[k]? = some id)
    (hd : devices[k]? = some d) :
    getUniqueDeviceKey env (List.zipWith hwRow ids devices) id
      = getUniqueDeviceKey env [hwRow id d] id := by
  apply getUniqueDeviceKey_congr
  rw [hwLookup_rows ids devices k id d hnodup hid hd]
  simp [hwLookup, hwRow]

theorem store_frame (p : Platform) (ref : Ref) (device : Device) :
    (p.store ref device).hw = p.hw ∧ (p.store ref device).sensors = p.sensors
    ∧ (p.store ref device).configSensors = p.configSensors := by
  cases ref with
  | config i =>
    cases h : p.configDevices <;> simp [Platform.store, h]
  | adopted i =>
    by_cases h : i < p.adopted.length <;> simp [Platform.store, h]

theorem enumerateItem_shape (env : Env) (p : Platform) (item : HwDevice)
    (hkind : item.type = "DEVICE") :
    (enumerateItem env p item).hw = p.hw
    ∧ (enumerateItem env p item).configDevices
        = (p.store (resolveDevice env p item).1
            (withInitialState item (resolveDevice env p item).2)).configDevices
    ∧ (enumerateItem env p item).adopted
        = (p.store (resolveDevice env p item).1
            (withInitialState item (resolveDevice env p item).2)).adopted
    ∧ ((enumerateItem env p item).devices = p.devices
        ∨ ∃ kind, (enumerateItem env p item).devices
            = p.devices ++ [{ kind := kind, device := (resolveDevice env p item).1 }]) := by
  unfold enumerateItem
  rw [if_pos hkind]
  rcases resolveDevice env p item with ⟨ref, device⟩
  simp only
  split_ifs
  · exact ⟨(store_frame p ref _).1, rfl, rfl,
      Or.inr ⟨.motionSensor, by simp [store_devices_log]⟩⟩
  · exact ⟨(store_frame p ref _).1, rfl, rfl,
      Or.inr ⟨.notificationSwitch, by simp [store_devices_log]⟩⟩
  · exact ⟨(store_frame p ref _).1, rfl, rfl, Or.inr ⟨.switch, by simp [store_devices_log]⟩⟩
  · exact ⟨(store_frame p ref _).1, rfl, rfl, Or.inr ⟨.switch, by simp [store_devices_log]⟩⟩
  · exact ⟨(store_frame p ref _).1, rfl, rfl, Or.inl (store_devices_log p ref _).1⟩

theorem mem_zipWith_getElem {α β γ : Type} (f : α → β → γ) (xs : List α) (ys : List β) (x : γ)
    (h : x ∈ List.zipWith f xs ys) :
    ∃ (k : Nat) (a : α) (b : β), xs[k]? = some a ∧ ys[k]? = some b ∧ x = f a b := by
  induction xs generalizing ys with
  | nil => simp at h
  | cons a xs ih =>
    cases ys with
    | nil => simp at h
    | cons b ys =>
      simp only [List.zipWith_cons_cons, List.mem_cons] at h
      rcases h with h | h
      · exact ⟨0, a, b, by simp, by simp, h⟩
      · obtain ⟨k, a1, b1, ha, hb, hx⟩ := ih ys h
        exact ⟨k + 1, a1, b1, by simpa using ha, by simpa using hb, hx⟩

theorem getElem?_zipWith_some {α β γ : Type} (f : α → β → γ) (xs : List α) (ys : List β)
    (k : Nat) (a : α) (b : β) (ha : xs[k]? = some a) (hb : ys[k]? = some b) :
    (List.zipWith f xs ys)[k]? = some (f a b) := by
  induction xs generalizing ys k with
  | nil => simp at ha
  | cons a0 xs ih =>
    cases ys with
    | nil => simp at hb
    | cons b0 ys =>
      cases k with
      | zero =>
        simp only [List.getElem?_cons_zero, Option.some.injEq] at ha hb
        simp [ha, hb]
      | succ k =>
        simp only [List.getElem?_cons_succ] at ha hb
        simpa using ih ys k ha hb

theorem enumerateItem_preserves (env : Env) (ids : List Int) (devices : List Device)
    (hnodup : ids.Nodup) (s : Platform) (item : HwDevice)
    (hitem : item ∈ List.zipWith hwRow ids devices)
    (hs : Enumerated ((List.zipWith (registered env) ids devices).map (fun e => e.uuid))
      ((List.zipWith (registered env) ids devices).map (fun e => e.id))
      (List.zipWith hwRow ids devices) s) :
    Enumerated ((List.zipWith (registered env) ids devices).map (fun e => e.uuid))
      ((List.zipWith (registered env) ids devices).map (fun e => e.id))
      (List.zipWith hwRow ids devices) (enumerateItem env s item) := by
  obtain ⟨hhw, hadopted, ⟨ds, hds, huuid, hidmap⟩, hacc⟩ := hs
  obtain ⟨k, id, d, hid, hd, hx⟩ := mem_zipWith_getElem hwRow ids devices item hitem
  subst hx
  have hkey := getUniqueDeviceKey_rows env ids devices k id d hnodup hid hd
  have hUk : ((List.zipWith (registered env) ids devices).map (fun e => e.uuid))[k]?
      = some (some (getUniqueDeviceKey env [hwRow id d] id)) := by
    rw [List.getElem?_map, getElem?_zipWith_some _ _ _ k id d hid hd]
    rfl
  have hex : ∃ e ∈ ds, e.uuid = some (getUniqueDeviceKey env [hwRow id d] id) := by
    rw [← huuid, List.getElem?_map] at hUk
    cases hk : ds[k]? with
    | none =>
      rw [hk] at hUk
      simp at hUk
    | some e =>
      rw [hk] at hUk
      simp only [Option.map_some', Option.some.injEq] at hUk
      exact ⟨e, List.getElem?_mem hk, hUk⟩
  obtain ⟨m, e, hfind⟩ := findConfigDevice_isSome _ ds 0 hex
  obtain ⟨m0, hm, hem, heu, hmin⟩ := findConfigDevice_some _ ds 0 m e hfind
  have hm0 : m = m0 := by omega
  subst hm0
  have hres : resolveDevice env s (hwRow id d) = (Ref.config m, e) := by
    unfold resolveDevice
    simp only [hhw, hds]
    rw [show (hwRow id d).id = id from rfl, hkey, hfind]
  obtain ⟨h1, h2, h3, h4⟩ := enumerateItem_shape env s (hwRow id d) rfl
  rw [hres] at h2 h3 h4
  simp only at h2 h3 h4
  have hfirst : FirstUuid ((List.zipWith (registered env) ids devices).map (fun e => e.uuid)) m := by
    refine ⟨getUniqueDeviceKey env [hwRow id d] id, ?_, fun j hj => ?_⟩
    · rw [← huuid, List.getElem?_map, hem]
      simp [heu]
    · rw [← huuid]
      exact hmin j hj
  refine ⟨h1.trans hhw, ?_, ?_, ?_⟩
  · rw [h3]
    simp [Platform.store, hds, hadopted]
  · refine ⟨ds.set m (withInitialState (hwRow id d) e), ?_, ?_, ?_⟩
    · rw [h2]
      simp [Platform.store, hds]
    · rw [map_set_same _ ds m _ e hem (withInitialState_fields _ e).2.2.1]
      exact huuid
    · rw [map_set_same _ ds m _ e hem (withInitialState_fields _ e).2.2.2.1]
      exact hidmap
  · intro a ha
    rcases h4 with h4 | ⟨kind, h4⟩
    · rw [h4] at ha
      exact hacc a ha
    · rw [h4] at ha
      rcases List.mem_append.1 ha with ha | ha
      · exact hacc a ha
      · simp only [List.mem_singleton] at ha
        subst ha
        exact ⟨m, rfl, hfirst⟩

theorem foldl_preserves {σ ι : Type} (step : σ → ι → σ) (inv : σ → Prop) (items : List ι)
    (s : σ) (hstep : ∀ s item, item ∈ items → inv s → inv (step s item)) (hs : inv s) :
    inv (items.foldl step s) := by
  induction items generalizing s with
  | nil => exact hs
  | cons x rest ih =>
    simp only [List.foldl_cons]
    exact ih (step s x) (fun s item hitem => hstep s item (by simp [hitem]))
      (hstep s x (by simp) hs)

theorem ingestSensors_frame (env : Env) (hwSensors : List HwSensor) (p q : Platform)
    (h : ingestSensors env p hwSensors = some q) :
    q.hw = p.hw ∧ q.configDevices = p.configDevices ∧ q.adopted = p.adopted
    ∧ q.devices = p.devices := by
  induction hwSensors generalizing p with
  | nil =>
    simp only [ingestSensors, Option.some.injEq] at h
    subst h
    exact ⟨rfl, rfl, rfl, rfl⟩
  | cons item rest ih =>
    unfold ingestSensors at h
    cases hstep : ingestSensor env p item with
    | none => simp [hstep] at h
    | some p1 =>
      rw [hstep] at h
      have h1 := ih p1 h
      have h2 : p1.hw = p.hw ∧ p1.configDevices = p.configDevices ∧ p1.adopted = p.adopted
          ∧ p1.devices = p.devices := by
        unfold ingestSensor at hstep
        split at hstep
        · cases hstep
        · split at hstep
          · simp only at hstep
            split at hstep <;>
              (simp only [Option.some.injEq] at hstep; subst hstep; exact ⟨rfl, rfl, rfl, rfl⟩)
          · simp only [Option.some.injEq] at hstep
            subst hstep
            exact ⟨rfl, rfl, rfl, rfl⟩
      exact ⟨h1.1.trans h2.1, h1.2.1.trans h2.2.1, h1.2.2.1.trans h2.2.2.1,
        h1.2.2.2.trans h2.2.2.2⟩

theorem construct_enumerated (env : Env) (hfresh : FreshIds env) (config : Config)
    (devices : List Device) (hw : List HwDevice) (hwSensors : List HwSensor) (q : Platform)
    (hconfig : config.devices = some devices)
    (hstart : construct env config hw hwSensors = some q) :
    ∃ ids : List Int, ids.length = devices.length ∧ ids.Nodup
      ∧ (registerTellstickDevices env (initial config hw)).configDevices
          = some (List.zipWith (registered env) ids devices)
      ∧ Enumerated ((List.zipWith (registered env) ids devices).map (fun e => e.uuid))
          ((List.zipWith (registered env) ids devices).map (fun e => e.id))
          (List.zipWith hwRow ids devices) q := by
  obtain ⟨ids, hlen, hnodup, heq, -⟩ :=
    registerTellstickDevices_eq env hfresh (initial config hw) devices hconfig
  refine ⟨ids, hlen, hnodup, by rw [heq], ?_⟩
  unfold construct at hstart
  simp only at hstart
  have hframe := ingestSensors_frame env hwSensors _ q hstart
  have henum : Enumerated ((List.zipWith (registered env) ids devices).map (fun e => e.uuid))
      ((List.zipWith (registered env) ids devices).map (fun e => e.id))
      (List.zipWith hwRow ids devices)
      (enumerate env (registerTellstickDevices env (initial config hw))) := by
    unfold enumerate getDevicesSync
    have hhw : (registerTellstickDevices env (initial config hw)).hw
        = List.zipWith hwRow ids devices := by rw [heq]
    apply foldl_preserves
    · intro s item hitem hs
      rw [hhw] at hitem
      exact enumerateItem_preserves env ids devices hnodup s item hitem hs
    · rw [heq]
      exact ⟨rfl, rfl, ⟨_, rfl, rfl, rfl⟩, fun a ha => by simp [initial] at ha⟩
  obtain ⟨e1, e2, e3, e4⟩ := henum
  refine ⟨hframe.1.trans e1, hframe.2.2.1.trans e2, ?_, ?_⟩
  · rw [hframe.2.1]
    exact e3
  · rw [hframe.2.2.2]
    exact e4

theorem uniqueKeyParameters_hwRow (id : Int) (d : Device) :
    uniqueKeyParameters [hwRow id d] id
      = [d.protocol, d.model] ++ ((["house", "group", "unit", "code"].map
          (fun name => (configParameter d.parameters name).getD "")).filter
            (fun value => value != "")) := by
  have hlookup : hwLookup [hwRow id d] id = some (hwRow id d) := by
    simp [hwLookup, hwRow]
  have hparam : ∀ name, getDeviceParameterSync [hwRow id d] id name ""
      = (configParameter d.parameters name).getD "" := by
    intro name
    unfold getDeviceParameterSync
    rw [hlookup]
    simp only
    rw [(hwRow_mirrors id d).2.2.2 name]
    cases configParameter d.parameters name <;> rfl
  rw [uniqueKeyParameters_eq]
  unfold presentValues getProtocolSync getModelSync
  rw [hlookup]
  simp only [List.map_cons, List.map_nil, hparam]
  rfl

theorem registered_uuid_eq (env : Env) (idi idj : Int) (di dj : Device)
    (hprotocol : di.protocol = dj.protocol) (hmodel : di.model = dj.model)
    (hparams : ∀ name ∈ ["house", "group", "unit", "code"],
      configParameter di.parameters name = configParameter dj.parameters name) :
    (registered env idi di).uuid = (registered env idj dj).uuid := by
  unfold registered getUniqueDeviceKey uniqueKeyString
  simp only
  rw [uniqueKeyParameters_hwRow, uniqueKeyParameters_hwRow, hprotocol, hmodel]
  simp only [List.map_cons, List.map_nil]
  rw [hparams "house" (by simp), hparams "group" (by simp), hparams "unit" (by simp),
    hparams "code" (by simp)]

theorem exists_getElem? {α : Type} (l : List α) (i : Nat) (h : i < l.length) :
    ∃ x, l[i]? = some x :=
  ⟨l[i], List.getElem?_eq_getElem h⟩

theorem getElem?_of_map {α β : Type} (f : α → β) (l : List α) (i : Nat) (y : β)
    (h : (l.map f)[i]? = some y) : ∃ x, l[i]? = some x ∧ f x = y := by
  rw [List.getElem?_map] at h
  cases hx : l[i]? with
  | none => simp [hx] at h
  | some x =>
    rw [hx] at h
    simp only [Option.map_some', Option.some.injEq] at h
    exact ⟨x, rfl, h⟩

/-- C6, as the code has it: for a configuration with two entries `i < j` of
identical (protocol, model, house, group, unit, code) and a driver that hands
out unused ids, `registerTellstickDevices` writes two distinct hardware ids
and equal uuids back onto the two entries, and they keep them through
startup; the enumeration pass resolves every hardware device to the first
configuration entry with its uuid, so after startup no registry entry wraps
entry `j` and no registry entry carries the hardware id of entry `j`. -/
theorem duplicate_entries_resolve_to_first (env : Env) (hfresh : FreshIds env)
    (config : Config) (devices : List Device) (hw : List HwDevice)
    (hwSensors : List HwSensor) (q : Platform) (i j : Nat) (di dj : Device)
    (hconfig : config.devices = some devices)
    (hstart : construct env config hw hwSensors = some q)
    (hij : i < j) (hi : devices[i]? = some di) (hj : devices[j]? = some dj)
    (hprotocol : di.protocol = dj.protocol) (hmodel : di.model = dj.model)
    (hparams : ∀ name ∈ ["house", "group", "unit", "code"],
      configParameter di.parameters name = configParameter dj.parameters name) :
    ∃ (ei ej : Device) (idi idj : Int) (uuid : String),
      (registerTellstickDevices env (initial config hw)).deref (.config i)
          = some (registered env idi di)
      ∧ (registerTellstickDevices env (initial config hw)).deref (.config j)
          = some (registered env idj dj)
      ∧ (registered env idi di).uuid = some uuid ∧ (registered env idj dj).uuid = some uuid
      ∧ q.deref (.config i) = some ei ∧ q.deref (.config j) = some ej
      ∧ ei.id = some idi ∧ ej.id = some idj ∧ idi ≠ idj
      ∧ ei.uuid = some uuid ∧ ej.uuid = some uuid
      ∧ (∀ a ∈ q.devices, a.device ≠ Ref.config j)
      ∧ (∀ a ∈ q.devices, ∀ d, q.deref a.device = some d → d.id ≠ some idj) := by
  obtain ⟨ids, hlen, hnodup, hreg, hhw, hadopted, ⟨ds, hds, huuid, hidmap⟩, hacc⟩ :=
    construct_enumerated env hfresh config devices hw hwSensors q hconfig hstart
  have hjlt : j < devices.length := by
    by_contra hc
    rw [List.getElem?_eq_none (by omega)] at hj
    cases hj
  obtain ⟨idi, hidi⟩ := exists_getElem? ids i (by omega)
  obtain ⟨idj, hidj⟩ := exists_getElem? ids j (by omega)
  have hne : idi ≠ idj := by
    intro e
    have := (List.nodup_iff_getElem?_ne_getElem?.1 hnodup) i j hij (by omega)
    rw [hidi, hidj, e] at this
    exact this rfl
  have hri := getElem?_zipWith_some (registered env) ids devices i idi di hidi hi
  have hrj := getElem?_zipWith_some (registered env) ids devices j idj dj hidj hj
  have huu := registered_uuid_eq env idi idj di dj hprotocol hmodel hparams
  have hUi : ((List.zipWith (registered env) ids devices).map (fun e => e.uuid))[i]?
      = some (registered env idi di).uuid := by
    rw [List.getElem?_map, hri]
    rfl
  have hUj : ((List.zipWith (registered env) ids devices).map (fun e => e.uuid))[j]?
      = some (registered env idj dj).uuid := by
    rw [List.getElem?_map, hrj]
    rfl
  have hIi : ((List.zipWith (registered env) ids devices).map (fun e => e.id))[i]?
      = some (some idi) := by
    rw [List.getElem?_map, hri]
    rfl
  have hIj : ((List.zipWith (registered env) ids devices).map (fun e => e.id))[j]?
      = some (some idj) := by
    rw [List.getElem?_map, hrj]
    rfl
  obtain ⟨ei, hei, heiu⟩ := getElem?_of_map _ ds i _ (by rw [huuid]; exact hUi)
  obtain ⟨ej, hej, heju⟩ := getElem?_of_map _ ds j _ (by rw [huuid]; exact hUj)
  have heid : ei.id = some idi := by
    obtain ⟨x, hx, hxi⟩ := getElem?_of_map _ ds i _ (by rw [hidmap]; exact hIi)
    rw [hei] at hx
    cases hx
    exact hxi
  have hejd : ej.id = some idj := by
    obtain ⟨x, hx, hxi⟩ := getElem?_of_map _ ds j _ (by rw [hidmap]; exact hIj)
    rw [hej] at hx
    cases hx
    exact hxi
  have hnoj : ∀ a ∈ q.devices, a.device ≠ Ref.config j := by
    intro a ha hc
    obtain ⟨m, hm, u, hu, hmin⟩ := hacc a ha
    rw [hc] at hm
    cases hm
    rw [hUj] at hu
    exact hmin i hij (by rw [hUi, huu]; exact hu)
  refine ⟨ei, ej, idi, idj, getUniqueDeviceKey env [hwRow idj dj] idj, ?_, ?_, ?_, rfl, ?_, ?_,
    heid, hejd, hne, ?_, ?_, hnoj, ?_⟩
  · simp only [Platform.deref, hreg]
    exact hri
  · simp only [Platform.deref, hreg]
    exact hrj
  · rw [huu]
    rfl
  · simp only [Platform.deref, hds]
    exact hei
  · simp only [Platform.deref, hds]
    exact hej
  · rw [heiu, huu]
    rfl
  · rw [heju]
    rfl
  · intro a ha d hd hc
    obtain ⟨m, hm, -⟩ := hacc a ha
    have hmj : m ≠ j := fun e => hnoj a ha (by rw [hm, e])
    rw [hm] at hd
    simp only [Platform.deref, hds] at hd
    have hIm : (ds.map (fun e => e.id))[m]? = some (some idj) := by
      rw [List.getElem?_map, hd]
      simp [hc]
    rw [hidmap] at hIm
    obtain ⟨x, hx, hxi⟩ := getElem?_of_map _ _ m _ hIm
    have hmlt : m < ids.length := by
      by_contra hlt
      have hlen2 : (List.zipWith (registered env) ids devices).length ≤ m := by
        simp only [List.length_zipWith]
        omega
      rw [List.getElem?_eq_none hlen2] at hx
      cases hx
    obtain ⟨idm, hidm⟩ := exists_getElem? ids m hmlt
    obtain ⟨dm, hdm⟩ := exists_getElem? devices m (by omega)
    rw [getElem?_zipWith_some (registered env) ids devices m _ _ hidm hdm] at hx
    cases hx
    simp only [registered, Option.some.injEq] at hxi
    rw [hxi] at hidm
    rcases Nat.lt_or_gt_of_ne hmj with hlt | hgt
    · have := (List.nodup_iff_getElem?_ne_getElem?.1 hnodup) m j hlt (by omega)
      rw [hidm, hidj] at this
      exact this rfl
    · have := (List.nodup_iff_getElem?_ne_getElem?.1 hnodup) j m hgt hmlt
      rw [hidm, hidj] at this
      exact this rfl

/-- C6 at a concrete configuration: the two entries `left` and `right` with
the same protocol, model, house and unit. -/
theorem duplicate_entries_resolve_to_first_witness :
    construct sampleEnv duplicateConfig [] [] = some duplicateStartup
    ∧ ∃ (ei ej : Device) (idi idj : Int) (uuid : String),
      (registerTellstickDevices sampleEnv (initial duplicateConfig [])).deref (.config 0)
          = some (registered sampleEnv idi
              { id := none, uuid := none, name := "left", protocol := "arctech",
                model := "selflearning-switch",
                parameters := [("house", .number 77), ("unit", .number 1)],
                state := none, type := none })
      ∧ (registerTellstickDevices sampleEnv (initial duplicateConfig [])).deref (.config 1)
          = some (registered sampleEnv idj
              { id := none, uuid := none, name := "right", protocol := "arctech",
                model := "selflearning-switch",
                parameters := [("house", .text "77"), ("unit", .text "1")],
                state := none, type := none })
      ∧ (registered sampleEnv idi
              { id := none, uuid := none, name := "left", protocol := "arctech",
                model := "selflearning-switch",
                parameters := [("house", .number 77), ("unit", .number 1)],
                state := none, type := none }).uuid = some uuid
      ∧ (registered sampleEnv idj
              { id := none, uuid := none, name := "right", protocol := "arctech",
                model := "selflearning-switch",
                parameters := [("house", .text "77"), ("unit", .text "1")],
                state := none, type := none }).uuid = some uuid
      ∧ duplicateStartup.deref (.config 0) = some ei
      ∧ duplicateStartup.deref (.config 1) = some ej
      ∧ ei.id = some idi ∧ ej.id = some idj ∧ idi ≠ idj
      ∧ ei.uuid = some uuid ∧ ej.uuid = some uuid
      ∧ (∀ a ∈ duplicateStartup.devices, a.device ≠ Ref.config 1)
      ∧ (∀ a ∈ duplicateStartup.devices, ∀ d,
          duplicateStartup.deref a.device = some d → d.id ≠ some idj) :=
  ⟨by decide,
   duplicate_entries_resolve_to_first sampleEnv sampleEnv_fresh duplicateConfig _ [] []
     duplicateStartup 0 1 _ _ rfl (by decide) (by decide) rfl rfl rfl rfl (by decide)⟩

/-- C6 fails as stated: from the configuration with the two identical
entries `left` and `right` the constructor builds two registry entries that
both wrap the first entry, whose hardware id is 1; the second entry has
hardware id 2, which no registry entry carries, so a lookup of 2 finds
nothing. -/
theorem duplicate_entries_merged :
    construct sampleEnv duplicateConfig [] [] = some duplicateStartup
    ∧ duplicateStartup.devices
        = [{ kind := .switch, device := .config 0 }, { kind := .switch, device := .config 0 }]
    ∧ (duplicateStartup.deref (.config 0)).map (fun d => d.id) = some (some 1)
    ∧ (duplicateStartup.deref (.config 1)).map (fun d => d.id) = some (some 2)
    ∧ findDevice sampleEnv duplicateStartup (.num 2) = none := by
  refine ⟨by decide, by decide, by decide, by decide, by decide⟩

/-! ## Lookup of an accessory by its own hardware id -/

theorem isSome_getElem?_iff {α : Type} (l : List α) (i : Nat) :
    (l[i]?).isSome = true ↔ i < l.length := by
  constructor
  · intro h
    by_contra hc
    rw [List.getElem?_eq_none (by omega)] at h
    cases h
  · intro h
    rw [List.getElem?_eq_getElem h]
    rfl

theorem deref_congr (s t : Platform) (ref : Ref) (hc : t.configDevices = s.configDevices)
    (ha : t.adopted = s.adopted) : t.deref ref = s.deref ref := by
  cases ref <;> simp [Platform.deref, hc, ha]

theorem registryValid_congr (s t : Platform) (hc : t.configDevices = s.configDevices)
    (ha : t.adopted = s.adopted) (hd : t.devices = s.devices) (h : RegistryValid s) :
    RegistryValid t := by
  obtain ⟨h1, h2, h3⟩ := h
  refine ⟨fun ds hds => h1 ds (by rw [← hc]; exact hds), by rw [ha]; exact h2, ?_⟩
  intro a hmem
  rw [deref_congr s t a.device hc ha]
  exact h3 a (by rw [← hd]; exact hmem)

theorem deref_store_isSome (s : Platform) (ref other : Ref) (w : Device)
    (h : (s.deref other).isSome = true) : ((s.store ref w).deref other).isSome = true := by
  cases ref with
  | config i =>
    cases hc : s.configDevices with
    | none =>
      have : s.store (Ref.config i) w = s := by simp [Platform.store, hc]
      rw [this]
      exact h
    | some ds =>
      cases other with
      | config j =>
        simp only [Platform.deref, hc, isSome_getElem?_iff] at h
        simp only [Platform.store, hc, Platform.deref, isSome_getElem?_iff, List.length_set]
        exact h
      | adopted j =>
        simp only [Platform.deref] at h
        simp only [Platform.store, hc, Platform.deref]
        exact h
  | adopted i =>
    by_cases hi : i < s.adopted.length
    · cases other with
      | config j =>
        simp only [Platform.store, hi, if_true, Platform.deref]
        exact h
      | adopted j =>
        simp only [Platform.deref, isSome_getElem?_iff] at h
        simp only [Platform.store, hi, if_true, Platform.deref, isSome_getElem?_iff,
          List.length_set]
        exact h
    · cases other with
      | config j =>
        simp only [Platform.store, hi, if_false, Platform.deref]
        exact h
      | adopted j =>
        simp only [Platform.deref, isSome_getElem?_iff] at h
        simp only [Platform.store, hi, if_false, Platform.deref, isSome_getElem?_iff,
          List.length_append, List.length_singleton]
        omega

theorem resolveDevice_cases (env : Env) (s : Platform) (item : HwDevice) :
    (∃ ds i d, s.configDevices = some ds ∧ ds[i]? = some d
      ∧ resolveDevice env s item = (Ref.config i, d))
    ∨ (∃ d, d.id = some item.id
      ∧ resolveDevice env s item = (Ref.adopted s.adopted.length, d)) := by
  unfold resolveDevice
  cases hc : s.configDevices with
  | none => exact Or.inr ⟨_, rfl, rfl⟩
  | some ds =>
    simp only
    cases hf : findConfigDevice (getUniqueDeviceKey env s.hw item.id) ds 0 with
    | none => exact Or.inr ⟨_, rfl, rfl⟩
    | some r =>
      obtain ⟨i, d⟩ := r
      obtain ⟨m0, hm, hd, -, -⟩ := findConfigDevice_some _ ds 0 i d hf
      have him : i = m0 := by omega
      subst him
      exact Or.inl ⟨ds, i, d, rfl, hd, rfl⟩

theorem enumerateItem_valid (env : Env) (s : Platform) (item : HwDevice)
    (h : RegistryValid s) : RegistryValid (enumerateItem env s item) := by
  by_cases hkind : item.type = "DEVICE"
  · obtain ⟨-, e2, e3, e4⟩ := enumerateItem_shape env s item hkind
    obtain ⟨h1, h2, h3⟩ := h
    have hderef : ∀ r, (enumerateItem env s item).deref r
        = (s.store (resolveDevice env s item).1
            (withInitialState item (resolveDevice env s item).2)).deref r :=
      fun r => deref_congr _ _ r e2 e3
    have hold : ∀ a ∈ s.devices, ((enumerateItem env s item).deref a.device).isSome = true := by
      intro a ha
      rw [hderef]
      exact deref_store_isSome s _ _ _ (h3 a ha)
    rcases resolveDevice_cases env s item with ⟨ds, i, d, hds, hd, hres⟩ | ⟨d, hd, hres⟩
    · rw [hres] at e2 e3 e4 hderef
      simp only [Platform.store, hds] at e2 e3
      refine ⟨?_, ?_, ?_⟩
      · intro ds2 hds2 x hx
        rw [e2] at hds2
        cases hds2
        rcases List.mem_or_eq_of_mem_set hx with hx | hx
        · exact h1 ds hds x hx
        · rw [hx, (withInitialState_fields item d).2.2.2.1]
          exact h1 ds hds d (List.getElem?_mem hd)
      · rw [e3]
        exact h2
      · intro a ha
        rcases e4 with e4 | ⟨kind, e4⟩
        · rw [e4] at ha
          exact hold a ha
        · rw [e4] at ha
          rcases List.mem_append.1 ha with ha | ha
          · exact hold a ha
          · simp only [List.mem_singleton] at ha
            subst ha
            rw [hderef]
            have hi : i < ds.length := (isSome_getElem?_iff ds i).1 (by rw [hd]; rfl)
            simp only [Platform.store, hds, Platform.deref, isSome_getElem?_iff,
              List.length_set]
            exact hi
    · rw [hres] at e2 e3 e4 hderef
      simp only [Platform.store, Nat.lt_irrefl, if_false] at e2 e3
      refine ⟨?_, ?_, ?_⟩
      · intro ds2 hds2
        rw [e2] at hds2
        exact h1 ds2 hds2
      · intro x hx
        rw [e3] at hx
        rcases List.mem_append.1 hx with hx | hx
        · exact h2 x hx
        · simp only [List.mem_singleton] at hx
          rw [hx, (withInitialState_fields item d).2.2.2.1, hd]
          simp
      · intro a ha
        rcases e4 with e4 | ⟨kind, e4⟩
        · rw [e4] at ha
          exact hold a ha
        · rw [e4] at ha
          rcases List.mem_append.1 ha with ha | ha
          · exact hold a ha
          · simp only [List.mem_singleton] at ha
            subst ha
            rw [hderef]
            simp [Platform.store, Platform.deref]
  · have : enumerateItem env s item = s := by
      unfold enumerateItem
      rw [if_neg hkind]
    rw [this]
    exact h


theorem registerLoop_ids (env : Env) (devices : List Device) (hw : List HwDevice) :
    ∀ d ∈ (registerLoop env hw devices).1, d.id ≠ none := by
  induction devices generalizing hw with
  | nil => simp [registerLoop]
  | cons x rest ih =>
    intro d hd
    unfold registerLoop at hd
    simp only [List.mem_cons] at hd
    rcases hd with hd | hd
    · rw [hd]
      simp [registerDevice, addDeviceSync]
    · exact ih _ d hd

theorem registerTellstickDevices_valid (env : Env) (config : Config) (hw : List HwDevice) :
    RegistryValid (registerTellstickDevices env (initial config hw)) := by
  unfold registerTellstickDevices
  cases hc : (initial config hw).configDevices with
  | none =>
    simp only
    refine ⟨fun ds hds => ?_, fun d hd => by simp [initial] at hd,
      fun a ha => by simp [initial] at ha⟩
    rw [hc] at hds
    cases hds
  | some devices =>
    simp only
    refine ⟨fun ds hds => ?_, fun d hd => by simp [initial] at hd,
      fun a ha => by simp [initial] at ha⟩
    simp only [Option.some.injEq] at hds
    rw [← hds]
    exact registerLoop_ids env devices _

theorem construct_valid (env : Env) (config : Config) (hw : List HwDevice)
    (hwSensors : List HwSensor) (q : Platform)
    (h : construct env config hw hwSensors = some q) : RegistryValid q := by
  unfold construct at h
  simp only at h
  obtain ⟨-, f2, f3, f4⟩ := ingestSensors_frame env hwSensors _ q h
  refine registryValid_congr _ q f2 f3 f4 ?_
  unfold enumerate
  exact foldl_preserves (enumerateItem env) RegistryValid _ _
    (fun s item _ hs => enumerateItem_valid env s item hs)
    (registerTellstickDevices_valid env config hw)

theorem mem_modify {α : Type} (f : α → α) (l : List α) (i : Nat) (x : α)
    (h : x ∈ List.modify f i l) : ∃ y ∈ l, x = y ∨ x = f y := by
  induction l generalizing i with
  | nil => simp at h
  | cons a rest ih =>
    cases i with
    | zero =>
      simp only [List.modify_zero_cons, List.mem_cons] at h
      rcases h with h | h
      · exact ⟨a, by simp, Or.inr h⟩
      · exact ⟨x, by simp [h], Or.inl rfl⟩
    | succ i =>
      simp only [List.modify_succ_cons, List.mem_cons] at h
      rcases h with h | h
      · exact ⟨a, by simp, Or.inl h⟩
      · obtain ⟨y, hy, hxy⟩ := ih i h
        exact ⟨y, by simp [hy], hxy⟩

theorem modify_valid (s : Platform) (ref : Ref) (f : Device → Device)
    (hf : ∀ d, (f d).id = d.id) (h : RegistryValid s) : RegistryValid (s.modify ref f) := by
  obtain ⟨h1, h2, h3⟩ := h
  have hderef : ∀ a ∈ s.devices, ((s.modify ref f).deref a.device).isSome = true := by
    intro a ha
    by_cases hr : a.device = ref
    · rw [hr, deref_modify_same]
      have := h3 a ha
      rw [hr] at this
      cases hd : s.deref ref with
      | none => rw [hd] at this; cases this
      | some d => rfl
    · rw [deref_modify_ne s ref a.device f hr]
      exact h3 a ha
  cases ref with
  | config i =>
    cases hc : s.configDevices with
    | none =>
      have hsame : s.modify (Ref.config i) f = s := by simp [Platform.modify, hc]
      rw [hsame]
      exact ⟨h1, h2, h3⟩
    | some ds =>
      refine ⟨?_, ?_, ?_⟩
      · intro ds2 hds2 x hx
        simp only [Platform.modify, hc, Option.some.injEq] at hds2
        rw [← hds2] at hx
        obtain ⟨y, hy, hxy⟩ := mem_modify f ds i x hx
        rcases hxy with hxy | hxy
        · rw [hxy]
          exact h1 ds hc y hy
        · rw [hxy, hf]
          exact h1 ds hc y hy
      · simp only [Platform.modify, hc]
        exact h2
      · have hdev : (s.modify (Ref.config i) f).devices = s.devices := by
          simp [Platform.modify, hc]
        intro a ha
        rw [hdev] at ha
        exact hderef a ha
  | adopted i =>
    refine ⟨?_, ?_, ?_⟩
    · intro ds2 hds2
      exact h1 ds2 hds2
    · intro x hx
      simp only [Platform.modify] at hx
      obtain ⟨y, hy, hxy⟩ := mem_modify f s.adopted i x hx
      rcases hxy with hxy | hxy
      · rw [hxy]
        exact h2 y hy
      · rw [hxy, hf]
        exact h2 y hy
    · intro a ha
      exact hderef a ha

theorem deviceEventHandler_valid (env : Env) (s : Platform) (id : JSVal) (status : String)
    (h : RegistryValid s) : RegistryValid (deviceEventHandler env s id status) := by
  unfold deviceEventHandler
  cases hfind : findDevice env s id with
  | none => exact registryValid_congr s _ rfl rfl rfl h
  | some r =>
    obtain ⟨i, a⟩ := r
    simp only
    exact registryValid_congr _ _ rfl rfl rfl
      (modify_valid s a.device _ (fun _ => rfl) h)

theorem reachable_valid (env : Env) (config : Config) (hw : List HwDevice)
    (hwSensors : List HwSensor) (q : Platform) (h : Reachable env config hw hwSensors q) :
    RegistryValid q := by
  induction h with
  | startup q hq => exact construct_valid env config hw hwSensors q hq
  | deviceEvent q id status _ ih => exact deviceEventHandler_valid env q id status ih
  | sensorEvent q id protocol model type value timestamp _ ih =>
    unfold sensorEventHandler
    cases findSensor env q id with
    | none => exact registryValid_congr q _ rfl rfl rfl ih
    | some r => exact registryValid_congr q _ rfl rfl rfl ih
  | rawEvent q id data _ ih => exact registryValid_congr q _ rfl rfl rfl ih

theorem registryValid_device (s : Platform) (h : RegistryValid s) (a : Accessory)
    (ha : a ∈ s.devices) : ∃ d n, s.deref a.device = some d ∧ d.id = some n := by
  obtain ⟨h1, h2, h3⟩ := h
  have hsome := h3 a ha
  cases hd : s.deref a.device with
  | none => rw [hd] at hsome; cases hsome
  | some d =>
    have hid : d.id ≠ none := by
      cases hr : a.device with
      | config i =>
        rw [hr] at hd
        unfold Platform.deref at hd
        cases hc : s.configDevices with
        | none => rw [hc] at hd; cases hd
        | some ds =>
          rw [hc] at hd
          exact h1 ds hc d (List.getElem?_mem hd)
      | adopted i =>
        rw [hr] at hd
        exact h2 d (List.getElem?_mem hd)
    cases hn : d.id with
    | none => exact absurd hn hid
    | some n => exact ⟨d, n, rfl, hn⟩

theorem exists_isFirst_le {α : Type} (f : α → Bool) (l : List α) (i : Nat) (a : α)
    (ha : l[i]? = some a) (hf : f a = true) : ∃ k b, k ≤ i ∧ IsFirst f l k b := by
  induction l generalizing i with
  | nil => simp at ha
  | cons x rest ih =>
    by_cases hx : f x = true
    · exact ⟨0, x, Nat.zero_le i, (isFirst_cons_zero f x rest hx 0 x).2 ⟨rfl, rfl⟩⟩
    · have hx0 : f x = false := by simpa using hx
      cases i with
      | zero =>
        simp only [List.getElem?_cons_zero, Option.some.injEq] at ha
        rw [ha] at hx
        exact absurd hf hx
      | succ i =>
        simp only [List.getElem?_cons_succ] at ha
        obtain ⟨k, b, hk, hfirst⟩ := ih i ha
        exact ⟨k + 1, b, by omega, (isFirst_cons_succ f x rest hx0 (k + 1) b).2 ⟨k, rfl, hfirst⟩⟩

/-- C3, as the code has it: in every state reachable after startup, every
accessory at a position `i` of the device registry has a device object with a
hardware id `n`, and `findDevice(n)` succeeds: it returns the first accessory
in list order whose id or name equals (`==`) `n`, at a position not after
`i`; it returns the accessory at `i` itself exactly when no earlier accessory
has an id or a name equal to `n`. An id match precedes a name match only
within one entry. The same holds for `findSensor` over the sensor
registry. -/
theorem find_by_own_id (env : Env) (config : Config) (hw : List HwDevice)
    (hwSensors : List HwSensor) (q : Platform) (hq : Reachable env config hw hwSensors q) :
    (∀ i a, q.devices[i]? = some a →
      ∃ d n, q.deref a.device = some d ∧ d.id = some n
        ∧ (∃ k b, k ≤ i ∧ findDevice env q (.num n) = some (k, b))
        ∧ (findDevice env q (.num n) = some (i, a)
          ↔ ∀ j b, j < i → q.devices[j]? = some b → deviceHasKey env q (.num n) b = false))
    ∧ (∀ i a, q.sensors[i]? = some a →
      (∃ k b, k ≤ i ∧ findSensor env q (.num a.device.id) = some (k, b))
      ∧ (findSensor env q (.num a.device.id) = some (i, a)
        ↔ ∀ j b, j < i → q.sensors[j]? = some b
            → sensorHasKey env (.num a.device.id) b = false)) := by
  have hvalid := reachable_valid env config hw hwSensors q hq
  constructor
  · intro i a ha
    obtain ⟨d, n, hd, hid⟩ := registryValid_device q hvalid a (List.getElem?_mem ha)
    have hkey : deviceHasKey env q (.num n) a = true := by
      simp [deviceHasKey, hd, hid, looseEq]
    refine ⟨d, n, hd, hid, ?_, ?_⟩
    · obtain ⟨k, b, hk, hfirst⟩ := exists_isFirst_le _ q.devices i a ha hkey
      exact ⟨k, b, hk, (findDevice_iff_isFirst env q (.num n) k b).2 hfirst⟩
    · rw [findDevice_iff_isFirst]
      exact ⟨fun h => h.2.2, fun h => ⟨ha, hkey, h⟩⟩
  · intro i a ha
    have hkey : sensorHasKey env (.num a.device.id) a = true := by
      simp [sensorHasKey, looseEq]
    refine ⟨?_, ?_⟩
    · obtain ⟨k, b, hk, hfirst⟩ := exists_isFirst_le _ q.sensors i a ha hkey
      exact ⟨k, b, hk, (findSensor_iff_isFirst env q _ k b).2 hfirst⟩
    · rw [findSensor_iff_isFirst]
      exact ⟨fun h => h.2.2, fun h => ⟨ha, hkey, h⟩⟩

/-- C3 at a concrete reachable state: startup from the configuration with
the devices `2` and `porch`, followed by an ON event for hardware id 1; the
first accessory is found by its own id. -/
theorem find_by_own_id_witness :
    Reachable sampleEnv shadowConfig [] shadowSensors
      (deviceEventHandler sampleEnv shadowStartup (.num 1) "ON")
    ∧ ∃ d n, (deviceEventHandler sampleEnv shadowStartup (.num 1) "ON").deref (.config 0) = some d
      ∧ d.id = some n
      ∧ (∃ k b, k ≤ 0 ∧ findDevice sampleEnv
          (deviceEventHandler sampleEnv shadowStartup (.num 1) "ON") (.num n) = some (k, b))
      ∧ (findDevice sampleEnv (deviceEventHandler sampleEnv shadowStartup (.num 1) "ON") (.num n)
            = some (0, { kind := .switch, device := .config 0 })
          ↔ ∀ j b, j < 0
            → (deviceEventHandler sampleEnv shadowStartup (.num 1) "ON").devices[j]? = some b
            → deviceHasKey sampleEnv (deviceEventHandler sampleEnv shadowStartup (.num 1) "ON")
                (.num n) b = false) :=
  ⟨Reachable.deviceEvent _ _ _ (Reachable.startup _ (by decide)),
   (find_by_own_id sampleEnv shadowConfig [] shadowSensors _
      (Reachable.deviceEvent _ (.num 1) "ON" (Reachable.startup shadowStartup (by decide)))).1
      0 { kind := .switch, device := .config 0 } (by decide)⟩

/-- C3 fails as stated: after startup from a configuration whose first
device is named `2`, the second device has hardware id 2, and `findDevice(2)`
returns the first accessory, through its name; likewise `findSensor(6)`
returns the sensor named `6` instead of the sensor with id 6. -/
theorem id_lookup_shadowed_by_name :
    construct sampleEnv shadowConfig [] shadowSensors = some shadowStartup
    ∧ shadowStartup.devices[1]? = some { kind := .switch, device := .config 1 }
    ∧ (shadowStartup.deref (.config 1)).map (fun d => d.id) = some (some 2)
    ∧ (findDevice sampleEnv shadowStartup (.num 2)).map (fun r => r.1) = some 0
    ∧ (shadowStartup.sensors[1]?).map (fun a => a.device.id) = some 6
    ∧ (findSensor sampleEnv shadowStartup (.num 6)).map (fun r => r.1) = some 0 := by
  refine ⟨by decide, by decide, by decide, by decide, by decide, by decide⟩

end Telldus
